import Mathlib

/-!
# iothub_convenience_sample.c

A shallow embedding of `iothub_client/samples/iothub_convenience_sample/iothub_convenience_sample.c`.

* The console is a stream of bytes; `printf` is a small interpreter for the conversion
  specifications the sample uses (`%s`, `%d`, `%zu`, `%.*s`), with the limit of `INT_MAX`
  bytes per call.
* The three callbacks and `main` are state transformers on `State`: the two globals of the
  file plus the trace of externally visible actions (console writes and SDK calls).
* The SDK functions are external: every value they return to `main` is read from an `SDK`
  record, so a property proved for all `SDK` records holds for every behaviour of the SDK.
-/

namespace IoTHubConvenienceSample

/-! ## Console bytes and `printf` -/

/-- The console stream and every C buffer are byte sequences. -/
abbrev Bytes := List UInt8

/-- Bytes of an ASCII string literal of the source. -/
def ascii (s : String) : Bytes := s.toList.map (fun c => c.toNat.toUInt8)

/-- Non-NULL `const char*`: the characters before the terminating NUL, none of which is NUL. -/
structure CString where
  chars : Bytes
  no_nul : (0 : UInt8) ∉ chars

/-- Arguments passed to `printf` after the format string. -/
inductive Arg where
  | str (s : CString)
  | buf (b : Bytes)
  | int (i : Int)
  | size (n : Nat)

/-- Largest value of a 32-bit `int`. -/
def INT_MAX : Nat := 2147483647

/-- Concatenation of byte sequences. -/
def concat : List Bytes → Bytes
  | [] => []
  | p :: ps => p ++ concat ps

/-- The pieces in which `%d` and `%zu` write an integer: the minus sign of a negative one,
then the digits. -/
def decimalParts : Int → List Bytes
  | Int.ofNat n => [ascii (toString n)]
  | Int.negSucc n => [ascii "-", ascii (toString (n + 1))]

/-- Decimal text of an integer, as printed by `%d` and `%zu`. -/
def decimal (i : Int) : Bytes := concat (decimalParts i)

/-- Conversion `%.*s` applied to the buffer `b`: characters are written up to (not including)
the first NUL, and at most `precision` of them; a negative precision counts as omitted.
(With the precision omitted C would read on past a buffer without NUL; the model stops at
the end of the buffer.) -/
def printf_precision_s (precision : Int) (b : Bytes) : Bytes :=
  if precision < 0 then b.takeWhile (fun c => c != 0)
  else (b.take precision.toNat).takeWhile (fun c => c != 0)

/-- What one stretch of a format string hands to the output: a run of ordinary characters,
written in one go, or a conversion, written in one or more parts. -/
inductive Piece where
  | lit (b : Bytes)
  | conv (parts : List Bytes)

/-- Interpreter for the format strings of the sample: the runs of ordinary characters and
the conversions `%s`, `%d`, `%zu`, `%.*s`, in order. -/
def pieces : List Char → List Arg → List Piece
  | [], _ => []
  | '%' :: 's' :: rest, Arg.str s :: args => Piece.conv [s.chars] :: pieces rest args
  | '%' :: 'd' :: rest, Arg.int i :: args => Piece.conv (decimalParts i) :: pieces rest args
  | '%' :: 'z' :: 'u' :: rest, Arg.size n :: args =>
    Piece.conv (decimalParts n) :: pieces rest args
  | '%' :: '.' :: '*' :: 's' :: rest, Arg.int p :: Arg.buf b :: args =>
    Piece.conv [printf_precision_s p b] :: pieces rest args
  | c :: rest, args =>
    match pieces rest args with
    | Piece.lit b :: ps => Piece.lit (c.toNat.toUInt8 :: b) :: ps
    | ps => Piece.lit [c.toNat.toUInt8] :: ps

/-- The byte sequences handed to the output, in order. -/
def flatten : List Piece → List Bytes
  | [] => []
  | Piece.lit b :: ps => b :: flatten ps
  | Piece.conv parts :: ps => parts ++ flatten ps

/-- Output of one `printf` call that has already written `done` bytes and still has the
given byte sequences to write. `printf` counts the bytes in an `int` and fails (`EOVERFLOW`)
when the count would pass `INT_MAX`: each sequence is written, and the call stops after the
one that takes the count past `INT_MAX` (the behaviour of glibc 2.36). -/
def written : Nat → List Bytes → Bytes
  | _, [] => []
  | done, p :: ps =>
    p ++ (if INT_MAX < done + p.length then [] else written (done + p.length) ps)

/-- Bytes written by `printf(fmt, args...)`. The value returned by `printf`, which every call
in the file discards, is not modelled. -/
def printf (fmt : String) (args : List Arg) : Bytes :=
  written 0 (flatten (pieces fmt.toList args))

/-- Conversion `(int)n` of a `size_t` value, for a 32-bit two's complement `int`
(the conversion is implementation-defined when `n > INT_MAX`; this is the usual wrap). -/
def int_of_size_t (n : Nat) : Int :=
  if n % 2 ^ 32 < 2 ^ 31 then ((n % 2 ^ 32 : Nat) : Int) else ((n % 2 ^ 32 : Nat) : Int) - 2 ^ 32

/-! ## SDK types -/

/-- Opaque SDK handle or `void*`; `none` is `NULL`. -/
abbrev HANDLE := Option Nat

/-- Result enumerations of the SDK (`IOTHUB_CLIENT_RESULT`, `IOTHUB_MESSAGE_RESULT`,
`MAP_RESULT`): the `..._OK` enumerator or any other one. -/
inductive RESULT where
  | OK
  | ERROR (code : Nat)
  deriving DecidableEq

/-- Modelled from the spec: the enumeration `IOTHUBMESSAGE_CONTENT_TYPE` is declared in
`iothub_message.h`, which is not among the sources; the spec distinguishes binary and text
payloads and the code only compares against `IOTHUBMESSAGE_BYTEARRAY`. -/
inductive IOTHUBMESSAGE_CONTENT_TYPE where
  | IOTHUBMESSAGE_BYTEARRAY
  | IOTHUBMESSAGE_STRING
  | IOTHUBMESSAGE_UNKNOWN
  deriving DecidableEq

/-- Modelled from the spec: the enumeration `IOTHUBMESSAGE_DISPOSITION_RESULT` is declared in
`iothub_message.h`, which is not among the sources; the spec's dispositions are
accept, reject and abandon. -/
inductive IOTHUBMESSAGE_DISPOSITION_RESULT where
  | IOTHUBMESSAGE_ACCEPTED
  | IOTHUBMESSAGE_REJECTED
  | IOTHUBMESSAGE_ABANDONED
  deriving DecidableEq

/-- Modelled from the spec: the enumeration `IOTHUB_CLIENT_CONNECTION_STATUS` is declared in
`iothub_client_ll.h`, which is not among the sources; the spec's states are authenticated
and disconnected. -/
inductive IOTHUB_CLIENT_CONNECTION_STATUS where
  | IOTHUB_CLIENT_CONNECTION_AUTHENTICATED
  | IOTHUB_CLIENT_CONNECTION_UNAUTHENTICATED
  deriving DecidableEq

/-- The transport providers selectable by the `SAMPLE_...` switches. -/
inductive IOTHUB_CLIENT_TRANSPORT_PROVIDER where
  | MQTT_Protocol
  | MQTT_WebSocket_Protocol
  | AMQP_Protocol
  | AMQP_Protocol_over_WebSocketsTls
  | HTTP_Protocol
  deriving DecidableEq

/-- The callback functions of the file, as passed to the SDK. -/
inductive Callback where
  | receive_msg_callback
  | connection_status_callback
  | send_confirm_callback
  deriving DecidableEq

/-- What the SDK accessors return for an inbound `IOTHUB_MESSAGE_HANDLE message`.
`IoTHubMessage_GetByteArray` is `none` when its result is not `IOTHUB_MESSAGE_OK`, and
otherwise the buffer `buff_msg`, whose length is `buff_len`. -/
structure InboundMessage where
  IoTHubMessage_GetMessageId : Option CString
  IoTHubMessage_GetCorrelationId : Option CString
  IoTHubMessage_GetContentType : IOTHUBMESSAGE_CONTENT_TYPE
  IoTHubMessage_GetByteArray : Option Bytes
  IoTHubMessage_GetString : Option CString

/-! ## Observable actions and program state -/

/-- Externally visible actions: console writes and calls into the SDK and the C library.
A call that returns a handle records the handle it returned. -/
inductive Event where
  | printf (out : Bytes)
  | platform_init
  | IoTHubClient_CreateFromConnectionString (connectionString : String)
      (protocol : IOTHUB_CLIENT_TRANSPORT_PROVIDER) (ret : HANDLE)
  | IoTHubClient_SetMessageCallback (iothub_handle : HANDLE) (cb : Callback) (ctx : HANDLE)
  | IoTHubClient_SetConnectionStatusCallback (iothub_handle : HANDLE) (cb : Callback)
      (ctx : HANDLE)
  | IoTHubMessage_CreateFromString (source : String) (ret : HANDLE)
  | IoTHubMessage_SetMessageId (message_handle : HANDLE) (value : String)
  | IoTHubMessage_SetCorrelationId (message_handle : HANDLE) (value : String)
  | IoTHubMessage_SetContentTypeSystemProperty (message_handle : HANDLE) (value : String)
  | IoTHubMessage_SetContentEncodingSystemProperty (message_handle : HANDLE) (value : String)
  | IoTHubMessage_Properties (message_handle : HANDLE) (ret : HANDLE)
  | Map_AddOrUpdate (propMap : HANDLE) (key : String) (value : String)
  | IoTHubClient_SendEventAsync (iothub_handle : HANDLE) (message_handle : HANDLE)
      (cb : Callback) (ctx : HANDLE)
  | IoTHubMessage_Destroy (message_handle : HANDLE)
  | getchar
  | IoTHubClient_Destroy (iothub_handle : HANDLE)
  | platform_deinit
  deriving DecidableEq

/-- The two globals of the file and the trace of actions performed so far. -/
structure State where
  g_continueRunning : Bool
  g_message_count_send_confirmations : Nat
  trace : List Event

/-- State at program start: `g_continueRunning = true`, the counter `0`, nothing done. -/
def State.initial : State :=
  { g_continueRunning := true, g_message_count_send_confirmations := 0, trace := [] }

/-- Perform one action. -/
def State.emit (s : State) (e : Event) : State :=
  { s with trace := s.trace ++ [e] }

/-- Bytes written to the console by a trace. -/
def stdout : List Event → Bytes
  | [] => []
  | Event.printf out :: es => out ++ stdout es
  | _ :: es => stdout es

/-! ## The file's constants -/

/-- Line 45. -/
def connectionString : String := "[device connection string]"

/-- Line 46. -/
def MESSAGE_COUNT : Nat := 5

/-- String literal `"<unavailable>"`. -/
def unavailable : CString := ⟨ascii "<unavailable>", by decide⟩

/-! ## `receive_msg_callback` (lines 50-95) -/

/-- Lines 50-95. -/
def receive_msg_callback (message : InboundMessage) (user_context : HANDLE) (s : State) :
    IOTHUBMESSAGE_DISPOSITION_RESULT × State :=
  let _ := user_context
  let messageId : CString :=
    match message.IoTHubMessage_GetMessageId with
    | none => unavailable
    | some id => id
  let correlationId : CString :=
    match message.IoTHubMessage_GetCorrelationId with
    | none => unavailable
    | some id => id
  let content_type := message.IoTHubMessage_GetContentType
  let s :=
    if content_type = IOTHUBMESSAGE_CONTENT_TYPE.IOTHUBMESSAGE_BYTEARRAY then
      match message.IoTHubMessage_GetByteArray with
      | none => s.emit (Event.printf (printf "Failure retrieving byte array message\r\n" []))
      | some buff_msg =>
        let buff_len := buff_msg.length
        s.emit (Event.printf (printf
          "Received Binary message\r\nMessage ID: %s\r\n Correlation ID: %s\r\n Data: <<<%.*s>>> & Size=%d\r\n"
          [Arg.str messageId, Arg.str correlationId, Arg.int (int_of_size_t buff_len),
            Arg.buf buff_msg, Arg.int (int_of_size_t buff_len)]))
    else
      match message.IoTHubMessage_GetString with
      | none => s.emit (Event.printf (printf "Failure retrieving byte array message\r\n" []))
      | some string_msg =>
        s.emit (Event.printf (printf
          "Received String Message\r\nMessage ID: %s\r\n Correlation ID: %s\r\n Data: <<<%s>>>\r\n"
          [Arg.str messageId, Arg.str correlationId, Arg.str string_msg]))
  (IOTHUBMESSAGE_DISPOSITION_RESULT.IOTHUBMESSAGE_ACCEPTED, s)

/-! ## `connection_status_callback` (lines 97-110) -/

/-- Lines 97-110; `reason` has the SDK type `IOTHUB_CLIENT_CONNECTION_STATUS_REASON`, which the
function never inspects. -/
def connection_status_callback {Reason : Type} (result : IOTHUB_CLIENT_CONNECTION_STATUS)
    (reason : Reason) (user_context : HANDLE) (s : State) : State :=
  let _ := reason
  let _ := user_context
  if result = IOTHUB_CLIENT_CONNECTION_STATUS.IOTHUB_CLIENT_CONNECTION_AUTHENTICATED then
    s.emit (Event.printf (printf "The device client is connected to iothub\r\n" []))
  else
    s.emit (Event.printf (printf "The device client has been disconnected\r\n" []))

/-! ## `send_confirm_callback` (lines 112-118) -/

/-- Lines 112-118. `SIZE_MAX` is the largest `size_t` value (the increment wraps beyond it);
`ENUM_TO_STRING` is the SDK macro giving the name of an enumerator of the SDK enumeration
`IOTHUB_CLIENT_CONFIRMATION_RESULT`, here the type `Result`; neither declaration is among the
sources. -/
def send_confirm_callback {Result : Type} (SIZE_MAX : Nat) (ENUM_TO_STRING : Result → CString)
    (result : Result) (userContextCallback : HANDLE) (s : State) : State :=
  let _ := userContextCallback
  let s := { s with g_message_count_send_confirmations :=
    (s.g_message_count_send_confirmations + 1) % (SIZE_MAX + 1) }
  s.emit (Event.printf (printf
    "Confirmation callback received for message %zu with result %s\r\n"
    [Arg.size s.g_message_count_send_confirmations, Arg.str (ENUM_TO_STRING result)]))

/-! ## `main` (lines 120-212) -/

/-- Values returned to `main` by the external functions it calls. The calls made inside the
loop are indexed by the loop variable `index`. -/
structure SDK where
  platform_init : Int
  IoTHubClient_CreateFromConnectionString : HANDLE
  IoTHubClient_SetMessageCallback : RESULT
  IoTHubClient_SetConnectionStatusCallback : RESULT
  IoTHubMessage_CreateFromString : Nat → HANDLE
  IoTHubMessage_SetMessageId : Nat → RESULT
  IoTHubMessage_SetCorrelationId : Nat → RESULT
  IoTHubMessage_SetContentTypeSystemProperty : Nat → RESULT
  IoTHubMessage_SetContentEncodingSystemProperty : Nat → RESULT
  IoTHubMessage_Properties : Nat → HANDLE
  Map_AddOrUpdate : Nat → RESULT
  IoTHubClient_SendEventAsync : Nat → RESULT
  getchar : Int

/-- Body of the loop, lines 181-199, for one value of `index`. -/
def loop_body (sdk : SDK) (telemetry_msg : String) (iothub_handle : HANDLE) (index : Nat)
    (s : State) : State :=
  let message_handle := sdk.IoTHubMessage_CreateFromString index
  let s := s.emit (Event.IoTHubMessage_CreateFromString telemetry_msg message_handle)
  let _ := sdk.IoTHubMessage_SetMessageId index
  let s := s.emit (Event.IoTHubMessage_SetMessageId message_handle "MSG_ID")
  let _ := sdk.IoTHubMessage_SetCorrelationId index
  let s := s.emit (Event.IoTHubMessage_SetCorrelationId message_handle "CORE_ID")
  let _ := sdk.IoTHubMessage_SetContentTypeSystemProperty index
  let s := s.emit
    (Event.IoTHubMessage_SetContentTypeSystemProperty message_handle "application%2fjson")
  let _ := sdk.IoTHubMessage_SetContentEncodingSystemProperty index
  let s := s.emit (Event.IoTHubMessage_SetContentEncodingSystemProperty message_handle "utf-8")
  let propMap := sdk.IoTHubMessage_Properties index
  let s := s.emit (Event.IoTHubMessage_Properties message_handle propMap)
  let _ := sdk.Map_AddOrUpdate index
  let s := s.emit (Event.Map_AddOrUpdate propMap "property_key" "property_value")
  let s := s.emit (Event.printf (printf "Sending message %d to IoTHub\r\n"
    [Arg.int (int_of_size_t (index + 1))]))
  let _ := sdk.IoTHubClient_SendEventAsync index
  let s := s.emit (Event.IoTHubClient_SendEventAsync iothub_handle message_handle
    Callback.send_confirm_callback none)
  s.emit (Event.IoTHubMessage_Destroy message_handle)

/-- The loop `for (size_t index = ...; index < MESSAGE_COUNT; index++)` of line 179, entered
with the current value of `index`. `fuel` bounds the number of iterations;
`main_loop_fuel` shows that `MESSAGE_COUNT - index` is always enough. -/
def main_loop (sdk : SDK) (telemetry_msg : String) (iothub_handle : HANDLE) :
    Nat → Nat → State → State
  | 0, _, s => s
  | fuel + 1, index, s =>
    if index < MESSAGE_COUNT then
      main_loop sdk telemetry_msg iothub_handle fuel (index + 1)
        (loop_body sdk telemetry_msg iothub_handle index s)
    else s

/-- Lines 120-212, with `SAMPLE_MQTT` defined and `SET_TRUSTED_CERT_IN_SAMPLES` not. Returns
the value returned by `main` and the final state. -/
def main (sdk : SDK) : Int × State :=
  let s := State.initial
  let telemetry_msg := "test_message"
  let s := s.emit (Event.printf (printf
    "This sample will send %d messages and wait for any C2D messages.\r\nPress the enter key to end the sample\r\n\r\n"
    [Arg.int MESSAGE_COUNT]))
  let protocol := IOTHUB_CLIENT_TRANSPORT_PROVIDER.MQTT_Protocol
  let _ := sdk.platform_init
  let s := s.emit Event.platform_init
  let s := s.emit (Event.printf (printf "Creating IoTHub handle\r\n" []))
  let iothub_handle := sdk.IoTHubClient_CreateFromConnectionString
  let s := s.emit (Event.IoTHubClient_CreateFromConnectionString connectionString protocol
    iothub_handle)
  let _ := sdk.IoTHubClient_SetMessageCallback
  let s := s.emit (Event.IoTHubClient_SetMessageCallback iothub_handle
    Callback.receive_msg_callback none)
  let _ := sdk.IoTHubClient_SetConnectionStatusCallback
  let s := s.emit (Event.IoTHubClient_SetConnectionStatusCallback iothub_handle
    Callback.connection_status_callback none)
  let s := main_loop sdk telemetry_msg iothub_handle MESSAGE_COUNT 0 s
  let _ := sdk.getchar
  let s := s.emit Event.getchar
  let s := s.emit (Event.IoTHubClient_Destroy iothub_handle)
  let s := s.emit Event.platform_deinit
  (0, s)

/-! ## Vocabulary for stating properties of traces -/

/-- A submission: a call of `IoTHubClient_SendEventAsync`. -/
def isSend : Event → Bool
  | Event.IoTHubClient_SendEventAsync _ _ _ _ => true
  | _ => false

/-- A call of `getchar`. -/
def isGetchar : Event → Bool
  | Event.getchar => true
  | _ => false

/-- A call of `IoTHubClient_Destroy`. -/
def isClientDestroy : Event → Bool
  | Event.IoTHubClient_Destroy _ => true
  | _ => false

/-- A call of `platform_deinit`. -/
def isPlatformDeinit : Event → Bool
  | Event.platform_deinit => true
  | _ => false

/-- Calls that create, use or destroy a message handle or the property map it owns, and
`IoTHubClient_Destroy`. -/
def isLifecycle : Event → Bool
  | Event.IoTHubMessage_CreateFromString _ _ => true
  | Event.IoTHubMessage_SetMessageId _ _ => true
  | Event.IoTHubMessage_SetCorrelationId _ _ => true
  | Event.IoTHubMessage_SetContentTypeSystemProperty _ _ => true
  | Event.IoTHubMessage_SetContentEncodingSystemProperty _ _ => true
  | Event.IoTHubMessage_Properties _ _ => true
  | Event.Map_AddOrUpdate _ _ _ => true
  | Event.IoTHubClient_SendEventAsync _ _ _ _ => true
  | Event.IoTHubMessage_Destroy _ => true
  | Event.IoTHubClient_Destroy _ => true
  | _ => false

/-- Indices (from 0) of the actions of a trace that satisfy `p`, in increasing order. -/
def positionsFrom (p : Event → Bool) : Nat → List Event → List Nat
  | _, [] => []
  | i, e :: es => cond (p e) (i :: positionsFrom p (i + 1) es) (positionsFrom p (i + 1) es)

/-- Indices (from 0) of the actions of a trace that satisfy `p`, in increasing order. -/
def positions (p : Event → Bool) (tr : List Event) : List Nat :=
  positionsFrom p 0 tr

/-- The line `Sending message k to IoTHub`. -/
def sendingLine (k : Nat) : Bytes :=
  ascii "Sending message " ++ decimal k ++ ascii " to IoTHub\r\n"

/-- Actions of `main` before the loop. -/
def prologue (sdk : SDK) : List Event :=
  [ Event.printf (ascii
      "This sample will send 5 messages and wait for any C2D messages.\r\nPress the enter key to end the sample\r\n\r\n"),
    Event.platform_init,
    Event.printf (ascii "Creating IoTHub handle\r\n"),
    Event.IoTHubClient_CreateFromConnectionString "[device connection string]"
      IOTHUB_CLIENT_TRANSPORT_PROVIDER.MQTT_Protocol sdk.IoTHubClient_CreateFromConnectionString,
    Event.IoTHubClient_SetMessageCallback sdk.IoTHubClient_CreateFromConnectionString
      Callback.receive_msg_callback none,
    Event.IoTHubClient_SetConnectionStatusCallback sdk.IoTHubClient_CreateFromConnectionString
      Callback.connection_status_callback none ]

/-- Actions of the loop iteration with the given `index`. -/
def iteration (sdk : SDK) (index : Nat) : List Event :=
  [ Event.IoTHubMessage_CreateFromString "test_message" (sdk.IoTHubMessage_CreateFromString index),
    Event.IoTHubMessage_SetMessageId (sdk.IoTHubMessage_CreateFromString index) "MSG_ID",
    Event.IoTHubMessage_SetCorrelationId (sdk.IoTHubMessage_CreateFromString index) "CORE_ID",
    Event.IoTHubMessage_SetContentTypeSystemProperty (sdk.IoTHubMessage_CreateFromString index)
      "application%2fjson",
    Event.IoTHubMessage_SetContentEncodingSystemProperty (sdk.IoTHubMessage_CreateFromString index)
      "utf-8",
    Event.IoTHubMessage_Properties (sdk.IoTHubMessage_CreateFromString index)
      (sdk.IoTHubMessage_Properties index),
    Event.Map_AddOrUpdate (sdk.IoTHubMessage_Properties index) "property_key" "property_value",
    Event.printf (sendingLine (index + 1)),
    Event.IoTHubClient_SendEventAsync sdk.IoTHubClient_CreateFromConnectionString
      (sdk.IoTHubMessage_CreateFromString index) Callback.send_confirm_callback none,
    Event.IoTHubMessage_Destroy (sdk.IoTHubMessage_CreateFromString index) ]

/-- Actions of `main` after the loop. -/
def epilogue (sdk : SDK) : List Event :=
  [ Event.getchar,
    Event.IoTHubClient_Destroy sdk.IoTHubClient_CreateFromConnectionString,
    Event.platform_deinit ]

/-- All actions of one run of `main`, in order. -/
def straightLine (sdk : SDK) : List Event :=
  prologue sdk ++ iteration sdk 0 ++ iteration sdk 1 ++ iteration sdk 2 ++ iteration sdk 3
    ++ iteration sdk 4 ++ epilogue sdk

/-- Life of the message of iteration `index`: created, given its metadata, submitted once,
destroyed once. -/
def messageLife (sdk : SDK) (index : Nat) : List Event :=
  [ Event.IoTHubMessage_CreateFromString "test_message" (sdk.IoTHubMessage_CreateFromString index),
    Event.IoTHubMessage_SetMessageId (sdk.IoTHubMessage_CreateFromString index) "MSG_ID",
    Event.IoTHubMessage_SetCorrelationId (sdk.IoTHubMessage_CreateFromString index) "CORE_ID",
    Event.IoTHubMessage_SetContentTypeSystemProperty (sdk.IoTHubMessage_CreateFromString index)
      "application%2fjson",
    Event.IoTHubMessage_SetContentEncodingSystemProperty (sdk.IoTHubMessage_CreateFromString index)
      "utf-8",
    Event.IoTHubMessage_Properties (sdk.IoTHubMessage_CreateFromString index)
      (sdk.IoTHubMessage_Properties index),
    Event.Map_AddOrUpdate (sdk.IoTHubMessage_Properties index) "property_key" "property_value",
    Event.IoTHubClient_SendEventAsync sdk.IoTHubClient_CreateFromConnectionString
      (sdk.IoTHubMessage_CreateFromString index) Callback.send_confirm_callback none,
    Event.IoTHubMessage_Destroy (sdk.IoTHubMessage_CreateFromString index) ]

/-- An SDK in which every call succeeds. -/
def sdkAllOk : SDK :=
  { platform_init := 0
    IoTHubClient_CreateFromConnectionString := some 1
    IoTHubClient_SetMessageCallback := RESULT.OK
    IoTHubClient_SetConnectionStatusCallback := RESULT.OK
    IoTHubMessage_CreateFromString := fun index => some (100 + index)
    IoTHubMessage_SetMessageId := fun _ => RESULT.OK
    IoTHubMessage_SetCorrelationId := fun _ => RESULT.OK
    IoTHubMessage_SetContentTypeSystemProperty := fun _ => RESULT.OK
    IoTHubMessage_SetContentEncodingSystemProperty := fun _ => RESULT.OK
    IoTHubMessage_Properties := fun index => some (200 + index)
    Map_AddOrUpdate := fun _ => RESULT.OK
    IoTHubClient_SendEventAsync := fun _ => RESULT.OK
    getchar := 10 }

/-- An SDK in which the client handle cannot be created: `IoTHubClient_CreateFromConnectionString`
returns `NULL` and every call on the client handle reports failure. -/
def sdkCreateFails : SDK :=
  { platform_init := 0
    IoTHubClient_CreateFromConnectionString := none
    IoTHubClient_SetMessageCallback := RESULT.ERROR 1
    IoTHubClient_SetConnectionStatusCallback := RESULT.ERROR 1
    IoTHubMessage_CreateFromString := fun index => some (100 + index)
    IoTHubMessage_SetMessageId := fun _ => RESULT.OK
    IoTHubMessage_SetCorrelationId := fun _ => RESULT.OK
    IoTHubMessage_SetContentTypeSystemProperty := fun _ => RESULT.OK
    IoTHubMessage_SetContentEncodingSystemProperty := fun _ => RESULT.OK
    IoTHubMessage_Properties := fun index => some (200 + index)
    Map_AddOrUpdate := fun _ => RESULT.OK
    IoTHubClient_SendEventAsync := fun _ => RESULT.ERROR 1
    getchar := 10 }

/-- An SDK in which every call that can fail fails. -/
def sdkAllFail : SDK :=
  { platform_init := 1
    IoTHubClient_CreateFromConnectionString := none
    IoTHubClient_SetMessageCallback := RESULT.ERROR 1
    IoTHubClient_SetConnectionStatusCallback := RESULT.ERROR 1
    IoTHubMessage_CreateFromString := fun _ => none
    IoTHubMessage_SetMessageId := fun _ => RESULT.ERROR 1
    IoTHubMessage_SetCorrelationId := fun _ => RESULT.ERROR 1
    IoTHubMessage_SetContentTypeSystemProperty := fun _ => RESULT.ERROR 1
    IoTHubMessage_SetContentEncodingSystemProperty := fun _ => RESULT.ERROR 1
    IoTHubMessage_Properties := fun _ => none
    Map_AddOrUpdate := fun _ => RESULT.ERROR 1
    IoTHubClient_SendEventAsync := fun _ => RESULT.ERROR 1
    getchar := -1 }

/-! ## Vocabulary for stating properties of the callbacks -/

/-- Text printed for a message id or correlation id: the id, or `<unavailable>` when the
accessor returned `NULL`. -/
def printedId : Option CString → Bytes
  | none => ascii "<unavailable>"
  | some id => id.chars

/-- The complete block announcing a binary message with the given ids, data and size. -/
def binaryLine (messageId correlationId data : Bytes) (size : Int) : Bytes :=
  ascii "Received Binary message\r\nMessage ID: " ++ messageId ++ ascii "\r\n Correlation ID: "
    ++ correlationId ++ ascii "\r\n Data: <<<" ++ data ++ ascii ">>> & Size=" ++ decimal size
    ++ ascii "\r\n"

/-- The complete block announcing a text message with the given ids and data. -/
def stringLine (messageId correlationId data : Bytes) : Bytes :=
  ascii "Received String Message\r\nMessage ID: " ++ messageId ++ ascii "\r\n Correlation ID: "
    ++ correlationId ++ ascii "\r\n Data: <<<" ++ data ++ ascii ">>>\r\n"

/-- What a `printf` call writes for a binary message with the given ids, data and size:
`binaryLine` cut off where the count of bytes passes `INT_MAX`. -/
def binaryBlock (messageId correlationId data : Bytes) (size : Int) : Bytes :=
  written 0 (ascii "Received Binary message\r\nMessage ID: " :: messageId
    :: ascii "\r\n Correlation ID: " :: correlationId :: ascii "\r\n Data: <<<" :: data
    :: ascii ">>> & Size=" :: (decimalParts size ++ [ascii "\r\n"]))

/-- What a `printf` call writes for a text message with the given ids and data:
`stringLine` cut off where the count of bytes passes `INT_MAX`. -/
def stringBlock (messageId correlationId data : Bytes) : Bytes :=
  written 0 [ascii "Received String Message\r\nMessage ID: ", messageId,
    ascii "\r\n Correlation ID: ", correlationId, ascii "\r\n Data: <<<", data,
    ascii ">>>\r\n"]

/-- The line printed when the payload cannot be retrieved. -/
def failureLine : Bytes := ascii "Failure retrieving byte array message\r\n"

/-- What `receive_msg_callback` is expected to print for a message, case by case. -/
def expectedReceiveOutput (message : InboundMessage) : Bytes :=
  match message.IoTHubMessage_GetContentType, message.IoTHubMessage_GetByteArray,
    message.IoTHubMessage_GetString with
  | IOTHUBMESSAGE_CONTENT_TYPE.IOTHUBMESSAGE_BYTEARRAY, none, _ => failureLine
  | IOTHUBMESSAGE_CONTENT_TYPE.IOTHUBMESSAGE_BYTEARRAY, some buff, _ =>
    binaryBlock (printedId message.IoTHubMessage_GetMessageId)
      (printedId message.IoTHubMessage_GetCorrelationId)
      (printf_precision_s (int_of_size_t buff.length) buff) (int_of_size_t buff.length)
  | _, _, none => failureLine
  | _, _, some str =>
    stringBlock (printedId message.IoTHubMessage_GetMessageId)
      (printedId message.IoTHubMessage_GetCorrelationId) str.chars

/-- A binary message of 3 bytes whose second byte is zero, without ids. -/
def binaryWithNul : InboundMessage :=
  { IoTHubMessage_GetMessageId := none
    IoTHubMessage_GetCorrelationId := none
    IoTHubMessage_GetContentType := IOTHUBMESSAGE_CONTENT_TYPE.IOTHUBMESSAGE_BYTEARRAY
    IoTHubMessage_GetByteArray := some [65, 0, 66]
    IoTHubMessage_GetString := none }

/-- A binary message of 3 non-zero bytes with a message id. -/
def binaryABC : InboundMessage :=
  { IoTHubMessage_GetMessageId := some ⟨ascii "id-1", by decide⟩
    IoTHubMessage_GetCorrelationId := none
    IoTHubMessage_GetContentType := IOTHUBMESSAGE_CONTENT_TYPE.IOTHUBMESSAGE_BYTEARRAY
    IoTHubMessage_GetByteArray := some [65, 66, 67]
    IoTHubMessage_GetString := none }

/-- A text message `hello` with a correlation id. -/
def textHello : InboundMessage :=
  { IoTHubMessage_GetMessageId := none
    IoTHubMessage_GetCorrelationId := some ⟨ascii "corr-7", by decide⟩
    IoTHubMessage_GetContentType := IOTHUBMESSAGE_CONTENT_TYPE.IOTHUBMESSAGE_STRING
    IoTHubMessage_GetByteArray := none
    IoTHubMessage_GetString := some ⟨ascii "hello", by decide⟩ }

/-- A buffer of `n` bytes, each the letter `A`. -/
def manyA (n : Nat) : Bytes := List.replicate n 65

/-- A size for which `(int)n` wraps around to 3. -/
def wrapCount : Nat := 4294967299

/-- A binary message of `INT_MAX` bytes `A`, without ids. -/
def binaryHuge : InboundMessage :=
  { IoTHubMessage_GetMessageId := none
    IoTHubMessage_GetCorrelationId := none
    IoTHubMessage_GetContentType := IOTHUBMESSAGE_CONTENT_TYPE.IOTHUBMESSAGE_BYTEARRAY
    IoTHubMessage_GetByteArray := some (manyA INT_MAX)
    IoTHubMessage_GetString := none }

/-- A binary message of 4294967299 bytes `A`, without ids. -/
def binaryWrapping : InboundMessage :=
  { IoTHubMessage_GetMessageId := none
    IoTHubMessage_GetCorrelationId := none
    IoTHubMessage_GetContentType := IOTHUBMESSAGE_CONTENT_TYPE.IOTHUBMESSAGE_BYTEARRAY
    IoTHubMessage_GetByteArray := some (manyA wrapCount)
    IoTHubMessage_GetString := none }

/-- The string of `INT_MAX` letters `A`. -/
def hugeString : CString :=
  ⟨manyA INT_MAX, fun h => absurd (List.eq_of_mem_replicate h) (by decide)⟩

/-- A text message whose string has `INT_MAX` characters, without ids. -/
def textHuge : InboundMessage :=
  { IoTHubMessage_GetMessageId := none
    IoTHubMessage_GetCorrelationId := none
    IoTHubMessage_GetContentType := IOTHUBMESSAGE_CONTENT_TYPE.IOTHUBMESSAGE_STRING
    IoTHubMessage_GetByteArray := none
    IoTHubMessage_GetString := some hugeString }

/-- The complete line `Confirmation callback received for message k with result name`. -/
def plainConfirmationLine (k : Nat) (name : Bytes) : Bytes :=
  ascii "Confirmation callback received for message " ++ decimal k ++ ascii " with result "
    ++ name ++ ascii "\r\n"

/-- What a `printf` call writes for the k-th confirmation with the given result name:
`plainConfirmationLine` cut off where the count of bytes passes `INT_MAX`. -/
def confirmationLine (k : Nat) (name : CString) : Bytes :=
  written 0 (ascii "Confirmation callback received for message "
    :: (decimalParts k ++ [ascii " with result ", name.chars, ascii "\r\n"]))

/-- A sequence of invocations of `send_confirm_callback`, each with its own result and user
context, in the order in which they happen. -/
def confirm_all {Result : Type} (SIZE_MAX : Nat) (ENUM_TO_STRING : Result → CString) :
    List (Result × HANDLE) → State → State
  | [], s => s
  | (result, ctx) :: rest, s =>
    confirm_all SIZE_MAX ENUM_TO_STRING rest
      (send_confirm_callback SIZE_MAX ENUM_TO_STRING result ctx s)

/-- The lines expected from a sequence of invocations when the first one carries the ordinal
`k`, the next one `k + 1`, and so on. -/
def confirmationLines {Result : Type} (ENUM_TO_STRING : Result → CString) :
    Nat → List (Result × HANDLE) → List Event
  | _, [] => []
  | k, (result, _) :: rest =>
    Event.printf (confirmationLine k (ENUM_TO_STRING result))
      :: confirmationLines ENUM_TO_STRING (k + 1) rest

/-- Modelled from the spec: the outcome carried by a Delivery Confirmation, "success/failure/
timeout-like classification" (spec §3); the SDK enumeration `IOTHUB_CLIENT_CONFIRMATION_RESULT`
is declared in `iothub_client_ll.h`, which is not among the sources. -/
inductive DeliveryOutcome where
  | success
  | failure
  | timeout
  deriving DecidableEq

/-- Name of an outcome, standing for what `ENUM_TO_STRING` yields. -/
def DeliveryOutcome.name : DeliveryOutcome → CString
  | DeliveryOutcome.success => ⟨ascii "success", by decide⟩
  | DeliveryOutcome.failure => ⟨ascii "failure", by decide⟩
  | DeliveryOutcome.timeout => ⟨ascii "timeout", by decide⟩

/-! ## The facade behind `IoTHubClient_SendEventAsync`, from the spec -/

/-- Modelled from the spec: the Device Messaging Facade of spec §4.1 together with its
Transport Provider. The SDK function `IoTHubClient_SendEventAsync` and the transport that
delivers confirmations are not among the sources. Submitted messages are numbered 0, 1, 2, ...
in submission order; `inFlight` are the submitted messages the transport has not processed
yet; `confirmed` lists the invocations of the confirmation handler so far (message and
outcome); `app` is the state of the sample, whose handler is `send_confirm_callback`. -/
structure Facade where
  submitted : Nat
  inFlight : List Nat
  confirmed : List (Nat × DeliveryOutcome)
  app : State

/-- Modelled from the spec: a freshly opened connection in a freshly started program; the
SDK function that opens it is not among the sources. -/
def Facade.opened : Facade :=
  { submitted := 0, inFlight := [], confirmed := [], app := State.initial }

/-- Modelled from the spec: `sendAsync` "submits a message for transmission without blocking
the caller"; the SDK function `IoTHubClient_SendEventAsync` is not among the sources. -/
def Facade.sendAsync (f : Facade) : Facade :=
  { f with submitted := f.submitted + 1, inFlight := f.inFlight ++ [f.submitted] }

/-- Modelled from the spec: a Delivery Confirmation is "delivered after the underlying
transport has processed" the message, in an order the facade does not guarantee; the SDK
transport is not among the sources. The transport processes one in-flight message, the one
selected by `choice`, and the confirmation handler `send_confirm_callback` is invoked for it
with the outcome; nothing happens when no message is in flight. -/
def Facade.transportProcess (SIZE_MAX : Nat) (f : Facade) (choice : Nat)
    (outcome : DeliveryOutcome) : Facade :=
  match f.inFlight[choice % f.inFlight.length]? with
  | none => f
  | some m =>
    { submitted := f.submitted
      inFlight := f.inFlight.erase m
      confirmed := f.confirmed ++ [(m, outcome)]
      app := send_confirm_callback SIZE_MAX DeliveryOutcome.name outcome none f.app }

/-- Modelled from the spec: what can happen on an open connection, a submission by the caller
or a processing step of the transport; the SDK code is not among the sources. -/
inductive FacadeStep where
  | sendAsync
  | transportProcess (choice : Nat) (outcome : DeliveryOutcome)

/-- Modelled from the spec: one step on an open connection; the SDK code is not among the
sources. -/
def Facade.step (SIZE_MAX : Nat) (f : Facade) : FacadeStep → Facade
  | FacadeStep.sendAsync => f.sendAsync
  | FacadeStep.transportProcess choice outcome => f.transportProcess SIZE_MAX choice outcome

/-- Modelled from the spec: a finite run of steps on an open connection, in order; the SDK
code is not among the sources. -/
def Facade.run (SIZE_MAX : Nat) (f : Facade) (steps : List FacadeStep) : Facade :=
  steps.foldl (Facade.step SIZE_MAX) f

/-- Processing steps of the transport, one per listed choice and outcome. -/
def processing (later : List (Nat × DeliveryOutcome)) : List FacadeStep :=
  later.map (fun c => FacadeStep.transportProcess c.1 c.2)

/-- A submission among the steps of the facade. -/
def FacadeStep.isSubmission : FacadeStep → Bool
  | FacadeStep.sendAsync => true
  | FacadeStep.transportProcess _ _ => false

/-- Modelled from the spec: the steps of the facade that a run of `main` and the transport
bring about; the SDK code between `IoTHubClient_SendEventAsync` and the transport is not among
the sources. The actions of `main` are taken in order, `i` counting the actions and `index`
the calls of `IoTHubClient_SendEventAsync`. Such a call is a submission (`sendAsync`) when it
returns OK; a call that reports failure (`ConnectionError`, "connection not open", or
`SendError`, "transport rejected submission", both "signaled synchronously at submission")
submits nothing. After the action number `i` the transport takes the processing steps
`during i`. The call of `IoTHubClient_Destroy` is `close`: the steps end there. -/
def driveSteps (sdk : SDK) (during : Nat → List (Nat × DeliveryOutcome)) :
    Nat → Nat → List Event → List FacadeStep
  | _, _, [] => []
  | _, _, Event.IoTHubClient_Destroy _ :: _ => []
  | i, index, Event.IoTHubClient_SendEventAsync _ _ _ _ :: es =>
    (if sdk.IoTHubClient_SendEventAsync index = RESULT.OK then [FacadeStep.sendAsync] else [])
      ++ processing (during i) ++ driveSteps sdk during (i + 1) (index + 1) es
  | i, index, _ :: es => processing (during i) ++ driveSteps sdk during (i + 1) index es

/-- The invocations of the confirmation handler that the confirmations of the facade stand
for: the outcome of each, with the user context `NULL` that `main` registers. -/
def handlerCalls (confirmed : List (Nat × DeliveryOutcome)) : List (DeliveryOutcome × HANDLE) :=
  confirmed.map (fun c => (c.2, none))

/-! ## Basic facts about `main` -/

theorem printf_sending (index : Nat) (h : index < MESSAGE_COUNT) :
    printf "Sending message %d to IoTHub\r\n" [Arg.int (int_of_size_t (index + 1))]
      = sendingLine (index + 1) := by
  have all : ∀ i < MESSAGE_COUNT,
      printf "Sending message %d to IoTHub\r\n" [Arg.int (int_of_size_t (i + 1))]
        = sendingLine (i + 1) := by
    decide
  exact all index h

theorem int_of_size_t_small (n : Nat) (h : n ≤ INT_MAX) : int_of_size_t n = (n : Int) := by
  unfold INT_MAX at h
  unfold int_of_size_t
  have h1 : n % 2 ^ 32 = n := Nat.mod_eq_of_lt (by omega)
  rw [h1]
  have h2 : n < 2 ^ 31 := by omega
  rw [if_pos h2]

theorem loop_body_eq (sdk : SDK) (index : Nat) (h : index < MESSAGE_COUNT) (s : State) :
    loop_body sdk "test_message" sdk.IoTHubClient_CreateFromConnectionString index s
      = { s with trace := s.trace ++ iteration sdk index } := by
  simp only [loop_body, State.emit, iteration, printf_sending _ h, List.append_assoc,
    List.cons_append, List.nil_append, List.singleton_append]

/-- The fuel given by `main` never runs out: any fuel of at least `MESSAGE_COUNT - index`
gives the same run of the loop. -/
theorem main_loop_fuel (sdk : SDK) (msg : String) (h : HANDLE) (fuel : Nat) :
    ∀ (index : Nat) (s : State), MESSAGE_COUNT - index ≤ fuel →
      main_loop sdk msg h fuel index s = main_loop sdk msg h (MESSAGE_COUNT - index) index s := by
  induction fuel with
  | zero =>
    intro index s hf
    have h0 : MESSAGE_COUNT - index = 0 := by omega
    rw [h0]
  | succ n ih =>
    intro index s hf
    by_cases hlt : index < MESSAGE_COUNT
    · have hs : MESSAGE_COUNT - index = (MESSAGE_COUNT - (index + 1)) + 1 := by omega
      rw [hs]
      simp only [main_loop, if_pos hlt]
      exact ih (index + 1) _ (by omega)
    · have h0 : MESSAGE_COUNT - index = 0 := by omega
      rw [h0]
      simp only [main_loop, if_neg hlt]

/-- The complete run of `main`: it returns 0, leaves the globals untouched, and performs the
actions before the loop, five iterations, and the actions after the loop. -/
theorem main_run (sdk : SDK) :
    main sdk = (0, { State.initial with trace := straightLine sdk }) := by
  have e0 : printf
      "This sample will send %d messages and wait for any C2D messages.\r\nPress the enter key to end the sample\r\n\r\n"
      [Arg.int MESSAGE_COUNT] = ascii
      "This sample will send 5 messages and wait for any C2D messages.\r\nPress the enter key to end the sample\r\n\r\n" := by
    set_option maxRecDepth 100000 in decide
  have e1 : printf "Creating IoTHub handle\r\n" [] = ascii "Creating IoTHub handle\r\n" := by
    decide
  simp only [main, e0, e1, main_loop]
  rw [loop_body_eq _ _ (by decide), loop_body_eq _ _ (by decide), loop_body_eq _ _ (by decide),
    loop_body_eq _ _ (by decide), loop_body_eq _ _ (by decide)]
  simp [State.emit, State.initial, straightLine, prologue, epilogue, connectionString,
    MESSAGE_COUNT]

theorem main_trace (sdk : SDK) :
    (main sdk).2.trace = straightLine sdk := by
  rw [main_run]

theorem sendingLine_values :
    sendingLine (0 + 1) = ascii "Sending message 1 to IoTHub\r\n" ∧
    sendingLine (1 + 1) = ascii "Sending message 2 to IoTHub\r\n" ∧
    sendingLine (2 + 1) = ascii "Sending message 3 to IoTHub\r\n" ∧
    sendingLine (3 + 1) = ascii "Sending message 4 to IoTHub\r\n" ∧
    sendingLine (4 + 1) = ascii "Sending message 5 to IoTHub\r\n" := by
  decide

/-- C1. For every outcome of the SDK calls (a failed handle creation and failed submissions
included), one run of `main` calls `IoTHubClient_SendEventAsync` exactly `MESSAGE_COUNT = 5`
times; the action right before the k-th submission is the console line
`Sending message k to IoTHub`, for k = 1, 2, 3, 4, 5 in that order; and there is exactly one
`getchar`, after the last submission and before the only `IoTHubClient_Destroy`. -/
theorem main_submits_five_then_getchar (sdk : SDK) :
    ∃ p1 p2 p3 p4 p5 g d : Nat,
      positions isSend (main sdk).2.trace = [p1 + 1, p2 + 1, p3 + 1, p4 + 1, p5 + 1] ∧
      (positions isSend (main sdk).2.trace).length = MESSAGE_COUNT ∧
      (main sdk).2.trace[p1]? = some (Event.printf (ascii "Sending message 1 to IoTHub\r\n")) ∧
      (main sdk).2.trace[p2]? = some (Event.printf (ascii "Sending message 2 to IoTHub\r\n")) ∧
      (main sdk).2.trace[p3]? = some (Event.printf (ascii "Sending message 3 to IoTHub\r\n")) ∧
      (main sdk).2.trace[p4]? = some (Event.printf (ascii "Sending message 4 to IoTHub\r\n")) ∧
      (main sdk).2.trace[p5]? = some (Event.printf (ascii "Sending message 5 to IoTHub\r\n")) ∧
      positions isGetchar (main sdk).2.trace = [g] ∧
      positions isClientDestroy (main sdk).2.trace = [d] ∧
      p5 + 1 < g ∧ g < d := by
  obtain ⟨l1, l2, l3, l4, l5⟩ := sendingLine_values
  rw [main_trace]
  refine ⟨13, 23, 33, 43, 53, 56, 57, ?_, ?_, ?_, ?_, ?_, ?_, ?_, ?_, ?_, by decide, by decide⟩
  · simp [positions, positionsFrom, straightLine, prologue, iteration, epilogue, isSend]
  · simp [positions, positionsFrom, straightLine, prologue, iteration, epilogue, isSend,
      MESSAGE_COUNT]
  · rw [← l1]; simp [straightLine, prologue, iteration, epilogue]
  · rw [← l2]; simp [straightLine, prologue, iteration, epilogue]
  · rw [← l3]; simp [straightLine, prologue, iteration, epilogue]
  · rw [← l4]; simp [straightLine, prologue, iteration, epilogue]
  · rw [← l5]; simp [straightLine, prologue, iteration, epilogue]
  · simp [positions, positionsFrom, straightLine, prologue, iteration, epilogue, isGetchar]
  · simp [positions, positionsFrom, straightLine, prologue, iteration, epilogue,
      isClientDestroy]

/-- C7. For every combination of results returned by the SDK calls, `main` performs every
one of its actions in order (no early exit), ends with `IoTHubClient_Destroy` followed by
`platform_deinit`, each reached exactly once and after all five submissions, and returns 0. -/
theorem main_always_cleans_up_and_returns_zero (sdk : SDK) :
    (main sdk).1 = 0 ∧
    (main sdk).2.trace = straightLine sdk ∧
    ∃ pre, (main sdk).2.trace = pre ++
        [Event.IoTHubClient_Destroy sdk.IoTHubClient_CreateFromConnectionString,
          Event.platform_deinit] ∧
      (pre.filter isSend).length = MESSAGE_COUNT ∧
      (pre.filter isClientDestroy) = [] ∧ (pre.filter isPlatformDeinit) = [] := by
  rw [main_run]
  refine ⟨rfl, rfl, prologue sdk ++ iteration sdk 0 ++ iteration sdk 1 ++ iteration sdk 2
    ++ iteration sdk 3 ++ iteration sdk 4 ++ [Event.getchar], ?_, ?_, ?_, ?_⟩
  · simp [straightLine, epilogue]
  · simp [prologue, iteration, isSend, MESSAGE_COUNT]
  · simp [prologue, iteration, isClientDestroy]
  · simp [prologue, iteration, isPlatformDeinit]

/-- C9. In every run of `main`, the calls that create, use or destroy a message handle (or
its property map), together with `IoTHubClient_Destroy`, are exactly these, in this order: for each of the five
iterations the handle is created, given its metadata, handed to `IoTHubClient_SendEventAsync`
once and then destroyed once by `IoTHubMessage_Destroy`, before the next handle is created;
`IoTHubClient_Destroy` comes last. So no handle is used after its destruction and no
submission follows `IoTHubClient_Destroy`. -/
theorem message_handles_sent_once_then_destroyed (sdk : SDK) :
    (main sdk).2.trace.filter isLifecycle =
      messageLife sdk 0 ++ messageLife sdk 1 ++ messageLife sdk 2 ++ messageLife sdk 3
        ++ messageLife sdk 4
        ++ [Event.IoTHubClient_Destroy sdk.IoTHubClient_CreateFromConnectionString] := by
  rw [main_trace]
  simp [straightLine, prologue, iteration, epilogue, messageLife, isLifecycle]

/-- C6 (amended). `main` discards the result of every SDK call: for any two combinations of
SDK results (a `NULL` handle and non-OK results included) `main` returns the same value, 0,
and prints the same bytes, the banner, `Creating IoTHub handle` and the five
`Sending message k to IoTHub` lines. -/
theorem main_ignores_sdk_results (sdk sdk2 : SDK) :
    (main sdk).1 = 0 ∧ (main sdk2).1 = (main sdk).1 ∧
    stdout (main sdk2).2.trace = stdout (main sdk).2.trace ∧
    stdout (main sdk).2.trace = ascii
      "This sample will send 5 messages and wait for any C2D messages.\r\nPress the enter key to end the sample\r\n\r\nCreating IoTHub handle\r\nSending message 1 to IoTHub\r\nSending message 2 to IoTHub\r\nSending message 3 to IoTHub\r\nSending message 4 to IoTHub\r\nSending message 5 to IoTHub\r\n" := by
  have h : ∀ k : SDK, stdout (main k).2.trace = stdout (main sdkAllOk).2.trace := by
    intro k
    rw [main_trace, main_trace]
    simp [straightLine, prologue, iteration, epilogue, stdout]
  refine ⟨by rw [main_run], by rw [main_run, main_run], by rw [h sdk2, h sdk], ?_⟩
  rw [h sdk]
  set_option maxRecDepth 100000 in decide

/-! ## `printf` within and beyond `INT_MAX` bytes -/

theorem written_cons (done : Nat) (p : Bytes) (ps : List Bytes) :
    written done (p :: ps)
      = p ++ (if INT_MAX < done + p.length then [] else written (done + p.length) ps) :=
  rfl

theorem concat_append (xs ys : List Bytes) : concat (xs ++ ys) = concat xs ++ concat ys := by
  induction xs with
  | nil => rfl
  | cons x xs ih => simp [concat, ih]

/-- A call whose whole output fits in `INT_MAX` bytes writes all of it. -/
theorem written_all (ps : List Bytes) :
    ∀ done : Nat, done + (concat ps).length ≤ INT_MAX → written done ps = concat ps := by
  induction ps with
  | nil => intro done _; rfl
  | cons p ps ih =>
    intro done h
    simp only [concat, List.length_append] at h
    have h1 : ¬ INT_MAX < done + p.length := by omega
    rw [written_cons, if_neg h1, ih (done + p.length) (by omega)]
    rfl

/-- A call stops after the sequence that takes the count of bytes past `INT_MAX`. -/
theorem written_stop (pre : List Bytes) (p : Bytes) (rest : List Bytes) :
    ∀ done : Nat, done + (concat pre).length ≤ INT_MAX →
      INT_MAX < done + (concat pre).length + p.length →
      written done (pre ++ p :: rest) = concat pre ++ p := by
  induction pre with
  | nil =>
    intro done _ h2
    simp only [concat, List.length_nil, Nat.add_zero] at h2
    simp only [List.nil_append, written_cons, if_pos h2, concat, List.append_nil]
  | cons q pre ih =>
    intro done h1 h2
    simp only [concat, List.length_append] at h1 h2
    have h3 : ¬ INT_MAX < done + q.length := by omega
    rw [List.cons_append, written_cons, if_neg h3, ih (done + q.length) (by omega) (by omega)]
    simp [concat]

theorem not_prefix_append (p a r : Bytes) (hlen : p.length ≤ a.length) (hp : ¬ p <+: a) :
    ¬ p <+: a ++ r := by
  intro h
  exact hp (List.prefix_of_prefix_length_le h (List.prefix_append a r) hlen)

theorem takeWhile_no_nul (b : Bytes) (h : (0 : UInt8) ∉ b) :
    b.takeWhile (fun c => c != 0) = b := by
  induction b with
  | nil => rfl
  | cons x xs ih =>
    have hx : x ≠ 0 := fun e => h (by simp [e])
    have hxs : (0 : UInt8) ∉ xs := fun e => h (by simp [e])
    have hb : (x != 0) = true := by simpa using hx
    rw [List.takeWhile]
    simp only [hb]
    rw [ih hxs]

theorem printf_precision_s_length (b : Bytes) :
    printf_precision_s (b.length : Int) b = b.takeWhile (fun c => c != 0) := by
  simp [printf_precision_s]

/-! ## `receive_msg_callback` -/

theorem printf_failure :
    printf "Failure retrieving byte array message\r\n" [] = failureLine := by
  decide

theorem printf_binary (a b : CString) (p q : Int) (buff : Bytes) :
    printf
      "Received Binary message\r\nMessage ID: %s\r\n Correlation ID: %s\r\n Data: <<<%.*s>>> & Size=%d\r\n"
      [Arg.str a, Arg.str b, Arg.int p, Arg.buf buff, Arg.int q]
      = binaryBlock a.chars b.chars (printf_precision_s p buff) q := by
  rfl

theorem printf_string (a b c : CString) :
    printf
      "Received String Message\r\nMessage ID: %s\r\n Correlation ID: %s\r\n Data: <<<%s>>>\r\n"
      [Arg.str a, Arg.str b, Arg.str c]
      = stringBlock a.chars b.chars c.chars := by
  rfl

theorem unavailable_chars : unavailable.chars = ascii "<unavailable>" := rfl

/-- Complete description of `receive_msg_callback`: it accepts, prints one block, and leaves
the globals alone. -/
theorem receive_msg_callback_eq (message : InboundMessage) (user_context : HANDLE) (s : State) :
    receive_msg_callback message user_context s =
      (IOTHUBMESSAGE_DISPOSITION_RESULT.IOTHUBMESSAGE_ACCEPTED,
        s.emit (Event.printf (expectedReceiveOutput message))) := by
  obtain ⟨mid, cid, ct, ba, str⟩ := message
  cases mid <;> cases cid <;> cases ct <;> cases ba <;> cases str <;>
    simp [receive_msg_callback, expectedReceiveOutput, printf_failure, printf_binary,
      printf_string, printedId, unavailable_chars]

/-- A binary block that fits in `INT_MAX` bytes is written completely. -/
theorem binaryBlock_eq_line (a b d : Bytes) (n : Int)
    (h : (binaryLine a b d n).length ≤ INT_MAX) : binaryBlock a b d n = binaryLine a b d n := by
  have hc : concat (ascii "Received Binary message\r\nMessage ID: " :: a
      :: ascii "\r\n Correlation ID: " :: b :: ascii "\r\n Data: <<<" :: d
      :: ascii ">>> & Size=" :: (decimalParts n ++ [ascii "\r\n"])) = binaryLine a b d n := by
    simp only [concat, concat_append, binaryLine, decimal, List.append_assoc, List.append_nil]
  rw [binaryBlock, written_all _ 0 (by rw [hc]; omega), hc]

/-- A text block that fits in `INT_MAX` bytes is written completely. -/
theorem stringBlock_eq_line (a b d : Bytes)
    (h : (stringLine a b d).length ≤ INT_MAX) : stringBlock a b d = stringLine a b d := by
  have hc : concat [ascii "Received String Message\r\nMessage ID: ", a,
      ascii "\r\n Correlation ID: ", b, ascii "\r\n Data: <<<", d, ascii ">>>\r\n"]
      = stringLine a b d := by
    simp only [concat, stringLine, List.append_assoc, List.append_nil]
  rw [stringBlock, written_all _ 0 (by rw [hc]; omega), hc]

theorem binaryBlock_classification (a b d : Bytes) (n : Int) :
    ascii "Received Binary message" <+: binaryBlock a b d n ∧
    ¬ ascii "Received String Message" <+: binaryBlock a b d n := by
  rw [binaryBlock, written_cons]
  constructor
  · exact List.IsPrefix.trans
      (by decide : ascii "Received Binary message"
        <+: ascii "Received Binary message\r\nMessage ID: ")
      (List.prefix_append _ _)
  · exact not_prefix_append _ _ _ (by decide) (by decide)

theorem stringBlock_classification (a b d : Bytes) :
    ascii "Received String Message" <+: stringBlock a b d ∧
    ¬ ascii "Received Binary message" <+: stringBlock a b d := by
  rw [stringBlock, written_cons]
  constructor
  · exact List.IsPrefix.trans
      (by decide : ascii "Received String Message"
        <+: ascii "Received String Message\r\nMessage ID: ")
      (List.prefix_append _ _)
  · exact not_prefix_append _ _ _ (by decide) (by decide)

theorem binaryLine_length_ge (a b d : Bytes) (n : Int) :
    d.length ≤ (binaryLine a b d n).length := by
  simp only [binaryLine, List.length_append]
  omega

theorem receive_binary_trace (message : InboundMessage) (user_context : HANDLE)
    (s : State) (buff : Bytes)
    (hct : message.IoTHubMessage_GetContentType
      = IOTHUBMESSAGE_CONTENT_TYPE.IOTHUBMESSAGE_BYTEARRAY)
    (hbuf : message.IoTHubMessage_GetByteArray = some buff) :
    (receive_msg_callback message user_context s).2.trace =
      s.trace ++ [Event.printf (binaryBlock (printedId message.IoTHubMessage_GetMessageId)
        (printedId message.IoTHubMessage_GetCorrelationId)
        (printf_precision_s (int_of_size_t buff.length) buff) (int_of_size_t buff.length))] := by
  rw [receive_msg_callback_eq]
  simp only [expectedReceiveOutput, hct, hbuf, State.emit]

theorem receive_text_trace (message : InboundMessage) (user_context : HANDLE)
    (s : State) (str : CString)
    (hct : message.IoTHubMessage_GetContentType
      ≠ IOTHUBMESSAGE_CONTENT_TYPE.IOTHUBMESSAGE_BYTEARRAY)
    (hstr : message.IoTHubMessage_GetString = some str) :
    (receive_msg_callback message user_context s).2.trace =
      s.trace ++ [Event.printf (stringBlock (printedId message.IoTHubMessage_GetMessageId)
        (printedId message.IoTHubMessage_GetCorrelationId) str.chars)] := by
  rw [receive_msg_callback_eq]
  obtain ⟨mid, cid, ct, ba, st⟩ := message
  simp only at hct hstr
  subst hstr
  cases ct
  · exact absurd rfl hct
  · cases ba <;> simp [expectedReceiveOutput, State.emit]
  · cases ba <;> simp [expectedReceiveOutput, State.emit]

/-- C3 (amended). For an inbound message whose content type is `IOTHUBMESSAGE_BYTEARRAY` and
whose byte array `buff` of `N` bytes is retrieved successfully, `receive_msg_callback` prints
exactly one block, which starts with `Received Binary message` and not with
`Received String Message`, whatever `N`. When `N ≤ INT_MAX` and the complete block has at
most `INT_MAX` bytes, the block is complete, its Size is `N` and its Data is `buff` up to, not
including, the first zero byte; when moreover `buff` has no zero byte, the Data is all `N`
bytes. -/
theorem receive_msg_callback_binary (message : InboundMessage) (user_context : HANDLE)
    (s : State) (buff : Bytes)
    (hct : message.IoTHubMessage_GetContentType
      = IOTHUBMESSAGE_CONTENT_TYPE.IOTHUBMESSAGE_BYTEARRAY)
    (hbuf : message.IoTHubMessage_GetByteArray = some buff) :
    (∃ out : Bytes,
      (receive_msg_callback message user_context s).2.trace = s.trace ++ [Event.printf out] ∧
      ascii "Received Binary message" <+: out ∧
      ¬ ascii "Received String Message" <+: out) ∧
    (buff.length ≤ INT_MAX →
      (binaryLine (printedId message.IoTHubMessage_GetMessageId)
        (printedId message.IoTHubMessage_GetCorrelationId)
        (buff.takeWhile (fun c => c != 0)) buff.length).length ≤ INT_MAX →
      (receive_msg_callback message user_context s).2.trace =
        s.trace ++ [Event.printf (binaryLine (printedId message.IoTHubMessage_GetMessageId)
          (printedId message.IoTHubMessage_GetCorrelationId)
          (buff.takeWhile (fun c => c != 0)) buff.length)]) ∧
    ((0 : UInt8) ∉ buff →
      (binaryLine (printedId message.IoTHubMessage_GetMessageId)
        (printedId message.IoTHubMessage_GetCorrelationId) buff buff.length).length ≤ INT_MAX →
      (receive_msg_callback message user_context s).2.trace =
        s.trace ++ [Event.printf (binaryLine (printedId message.IoTHubMessage_GetMessageId)
          (printedId message.IoTHubMessage_GetCorrelationId) buff buff.length)]) := by
  have key := receive_binary_trace message user_context s buff hct hbuf
  have small : buff.length ≤ INT_MAX →
      (binaryLine (printedId message.IoTHubMessage_GetMessageId)
        (printedId message.IoTHubMessage_GetCorrelationId)
        (buff.takeWhile (fun c => c != 0)) buff.length).length ≤ INT_MAX →
      (receive_msg_callback message user_context s).2.trace =
        s.trace ++ [Event.printf (binaryLine (printedId message.IoTHubMessage_GetMessageId)
          (printedId message.IoTHubMessage_GetCorrelationId)
          (buff.takeWhile (fun c => c != 0)) buff.length)] := by
    intro hlen hfit
    rw [key, int_of_size_t_small _ hlen, printf_precision_s_length,
      binaryBlock_eq_line _ _ _ _ hfit]
  refine ⟨⟨_, key, (binaryBlock_classification _ _ _ _).1,
    (binaryBlock_classification _ _ _ _).2⟩, small, ?_⟩
  intro h0 hfit
  have hlen : buff.length ≤ INT_MAX := le_trans (binaryLine_length_ge _ _ _ _) hfit
  have htw := takeWhile_no_nul _ h0
  have := small hlen (by rw [htw]; exact hfit)
  rw [htw] at this
  exact this

/-- The 3-byte binary message `ABC` with message id `id-1` is printed in full with Size=3. -/
theorem receive_msg_callback_binary_witness :
    binaryABC.IoTHubMessage_GetContentType
      = IOTHUBMESSAGE_CONTENT_TYPE.IOTHUBMESSAGE_BYTEARRAY ∧
    binaryABC.IoTHubMessage_GetByteArray = some [65, 66, 67] ∧
    (0 : UInt8) ∉ ([65, 66, 67] : Bytes) ∧
    (receive_msg_callback binaryABC none State.initial).2.trace =
      State.initial.trace ++ [Event.printf (binaryLine
        (printedId binaryABC.IoTHubMessage_GetMessageId)
        (printedId binaryABC.IoTHubMessage_GetCorrelationId) [65, 66, 67]
        ([65, 66, 67] : Bytes).length)] :=
  ⟨rfl, rfl, by decide,
    (receive_msg_callback_binary binaryABC none State.initial [65, 66, 67] rfl rfl).2.2
      (by decide) (by decide)⟩

/-- C3 (as stated) fails in three ways, each for a binary message retrieved successfully.
The 3-byte payload `A`, NUL, `B` is printed with Size=3 but with the single byte `A` as Data.
The payload of 4294967299 bytes `A` is printed with Size=3 and three bytes of Data. For the
payload of `INT_MAX` bytes `A` the output stops after the Data: no closing brackets and no
Size are printed. -/
theorem receive_msg_callback_binary_not_N_bytes :
    (binaryWithNul.IoTHubMessage_GetContentType
        = IOTHUBMESSAGE_CONTENT_TYPE.IOTHUBMESSAGE_BYTEARRAY ∧
      binaryWithNul.IoTHubMessage_GetByteArray = some [65, 0, 66] ∧
      (receive_msg_callback binaryWithNul none State.initial).2.trace =
        [Event.printf (ascii
          "Received Binary message\r\nMessage ID: <unavailable>\r\n Correlation ID: <unavailable>\r\n Data: <<<A>>> & Size=3\r\n")] ∧
      (receive_msg_callback binaryWithNul none State.initial).2.trace ≠
        [Event.printf
          (binaryLine (ascii "<unavailable>") (ascii "<unavailable>") [65, 0, 66] 3)]) ∧
    (binaryWrapping.IoTHubMessage_GetContentType
        = IOTHUBMESSAGE_CONTENT_TYPE.IOTHUBMESSAGE_BYTEARRAY ∧
      binaryWrapping.IoTHubMessage_GetByteArray = some (manyA wrapCount) ∧
      (manyA wrapCount).length = 4294967299 ∧
      (receive_msg_callback binaryWrapping none State.initial).2.trace =
        [Event.printf (ascii
          "Received Binary message\r\nMessage ID: <unavailable>\r\n Correlation ID: <unavailable>\r\n Data: <<<AAA>>> & Size=3\r\n")]) ∧
    (binaryHuge.IoTHubMessage_GetContentType
        = IOTHUBMESSAGE_CONTENT_TYPE.IOTHUBMESSAGE_BYTEARRAY ∧
      binaryHuge.IoTHubMessage_GetByteArray = some (manyA INT_MAX) ∧
      (manyA INT_MAX).length = 2147483647 ∧
      (receive_msg_callback binaryHuge none State.initial).2.trace =
        [Event.printf (ascii
          "Received Binary message\r\nMessage ID: <unavailable>\r\n Correlation ID: <unavailable>\r\n Data: <<<"
          ++ manyA INT_MAX)]) := by
  refine ⟨by decide, ⟨rfl, rfl, ?_, ?_⟩, ⟨rfl, rfl, ?_, ?_⟩⟩
  · simp only [manyA, List.length_replicate, wrapCount]
  · rw [receive_binary_trace binaryWrapping none State.initial (manyA wrapCount) rfl rfl]
    have hlen : (manyA wrapCount).length = wrapCount := by
      simp only [manyA, List.length_replicate]
    have hint : int_of_size_t wrapCount = 3 := by decide
    have hdata : printf_precision_s 3 (manyA wrapCount) = [65, 65, 65] := by
      have hmin : min 3 wrapCount = 3 := by decide
      have htake : List.take 3 (manyA wrapCount) = [65, 65, 65] := by
        rw [manyA, List.take_replicate, hmin]
        rfl
      have hpos : ¬ ((3 : Int) < 0) := by decide
      have h3 : (3 : Int).toNat = 3 := rfl
      rw [printf_precision_s, if_neg hpos, h3, htake]
      decide
    rw [hlen, hint, hdata]
    have hout : binaryBlock (printedId binaryWrapping.IoTHubMessage_GetMessageId)
        (printedId binaryWrapping.IoTHubMessage_GetCorrelationId) [65, 65, 65] 3 = ascii
        "Received Binary message\r\nMessage ID: <unavailable>\r\n Correlation ID: <unavailable>\r\n Data: <<<AAA>>> & Size=3\r\n" := by
      set_option maxRecDepth 100000 in decide
    rw [hout]
    rfl
  · simp only [manyA, List.length_replicate, INT_MAX]
  · rw [receive_binary_trace binaryHuge none State.initial (manyA INT_MAX) rfl rfl]
    have hlen : (manyA INT_MAX).length = INT_MAX := by
      simp only [manyA, List.length_replicate]
    have hno : (0 : UInt8) ∉ manyA INT_MAX :=
      fun h => absurd (List.eq_of_mem_replicate h) (by decide)
    rw [int_of_size_t_small _ (le_of_eq hlen), printf_precision_s_length,
      takeWhile_no_nul _ hno]
    have hpre : concat [ascii "Received Binary message\r\nMessage ID: ",
        printedId binaryHuge.IoTHubMessage_GetMessageId, ascii "\r\n Correlation ID: ",
        printedId binaryHuge.IoTHubMessage_GetCorrelationId, ascii "\r\n Data: <<<"] = ascii
        "Received Binary message\r\nMessage ID: <unavailable>\r\n Correlation ID: <unavailable>\r\n Data: <<<" := by
      set_option maxRecDepth 100000 in decide
    have hstop := written_stop
      [ascii "Received Binary message\r\nMessage ID: ",
        printedId binaryHuge.IoTHubMessage_GetMessageId, ascii "\r\n Correlation ID: ",
        printedId binaryHuge.IoTHubMessage_GetCorrelationId, ascii "\r\n Data: <<<"]
      (manyA INT_MAX)
      (ascii ">>> & Size=" :: (decimalParts ((manyA INT_MAX).length : Int) ++ [ascii "\r\n"]))
      0 (by rw [hpre]; decide) (by rw [hpre, hlen]; decide)
    rw [hpre] at hstop
    rw [binaryBlock]
    exact congrArg (fun out => State.initial.trace ++ [Event.printf out]) hstop

/-- C4 (amended). For an inbound message whose content type is not `IOTHUBMESSAGE_BYTEARRAY`
and whose `IoTHubMessage_GetString` returns the non-NULL string `str`, `receive_msg_callback`
prints exactly one block, which starts with `Received String Message` and not with
`Received Binary message`, whatever the length of `str`. When the complete block has at most
`INT_MAX` bytes, the block is complete and its Data between the brackets is exactly `str`. -/
theorem receive_msg_callback_text (message : InboundMessage) (user_context : HANDLE)
    (s : State) (str : CString)
    (hct : message.IoTHubMessage_GetContentType
      ≠ IOTHUBMESSAGE_CONTENT_TYPE.IOTHUBMESSAGE_BYTEARRAY)
    (hstr : message.IoTHubMessage_GetString = some str) :
    (∃ out : Bytes,
      (receive_msg_callback message user_context s).2.trace = s.trace ++ [Event.printf out] ∧
      ascii "Received String Message" <+: out ∧
      ¬ ascii "Received Binary message" <+: out) ∧
    ((ascii "Received String Message\r\nMessage ID: "
        ++ printedId message.IoTHubMessage_GetMessageId ++ ascii "\r\n Correlation ID: "
        ++ printedId message.IoTHubMessage_GetCorrelationId ++ ascii "\r\n Data: <<<"
        ++ str.chars ++ ascii ">>>\r\n").length ≤ INT_MAX →
      (receive_msg_callback message user_context s).2.trace =
        s.trace ++ [Event.printf (ascii "Received String Message\r\nMessage ID: "
          ++ printedId message.IoTHubMessage_GetMessageId ++ ascii "\r\n Correlation ID: "
          ++ printedId message.IoTHubMessage_GetCorrelationId ++ ascii "\r\n Data: <<<"
          ++ str.chars ++ ascii ">>>\r\n")]) := by
  have key := receive_text_trace message user_context s str hct hstr
  refine ⟨⟨_, key, (stringBlock_classification _ _ _).1,
    (stringBlock_classification _ _ _).2⟩, ?_⟩
  intro hfit
  rw [key, stringBlock_eq_line _ _ _ hfit]
  rfl

/-- The text message `hello` with correlation id `corr-7` is printed as a string message. -/
theorem receive_msg_callback_text_witness :
    textHello.IoTHubMessage_GetContentType
      ≠ IOTHUBMESSAGE_CONTENT_TYPE.IOTHUBMESSAGE_BYTEARRAY ∧
    textHello.IoTHubMessage_GetString = some ⟨ascii "hello", by decide⟩ ∧
    (receive_msg_callback textHello (some 7) State.initial).2.trace =
      State.initial.trace ++ [Event.printf (ascii "Received String Message\r\nMessage ID: "
        ++ printedId textHello.IoTHubMessage_GetMessageId ++ ascii "\r\n Correlation ID: "
        ++ printedId textHello.IoTHubMessage_GetCorrelationId ++ ascii "\r\n Data: <<<"
        ++ ascii "hello" ++ ascii ">>>\r\n")] :=
  ⟨by decide, rfl,
    (receive_msg_callback_text textHello (some 7) State.initial ⟨ascii "hello", by decide⟩
      (by decide) rfl).2 (by decide)⟩

/-- C4 (as stated) fails: for the text message whose string is `INT_MAX` letters `A`, the
output stops after the string, so no closing brackets are printed and the Data is not
delimited. -/
theorem receive_msg_callback_text_cut_off :
    textHuge.IoTHubMessage_GetContentType
      ≠ IOTHUBMESSAGE_CONTENT_TYPE.IOTHUBMESSAGE_BYTEARRAY ∧
    textHuge.IoTHubMessage_GetString = some hugeString ∧
    hugeString.chars.length = 2147483647 ∧
    (receive_msg_callback textHuge none State.initial).2.trace =
      [Event.printf (ascii
        "Received String Message\r\nMessage ID: <unavailable>\r\n Correlation ID: <unavailable>\r\n Data: <<<"
        ++ hugeString.chars)] := by
  refine ⟨by decide, rfl, ?_, ?_⟩
  · simp only [hugeString, manyA, List.length_replicate, INT_MAX]
  · rw [receive_text_trace textHuge none State.initial hugeString (by decide) rfl]
    have hlen : hugeString.chars.length = INT_MAX := by
      simp only [hugeString, manyA, List.length_replicate]
    have hpre : concat [ascii "Received String Message\r\nMessage ID: ",
        printedId textHuge.IoTHubMessage_GetMessageId, ascii "\r\n Correlation ID: ",
        printedId textHuge.IoTHubMessage_GetCorrelationId, ascii "\r\n Data: <<<"] = ascii
        "Received String Message\r\nMessage ID: <unavailable>\r\n Correlation ID: <unavailable>\r\n Data: <<<" := by
      set_option maxRecDepth 100000 in decide
    have hstop := written_stop
      [ascii "Received String Message\r\nMessage ID: ",
        printedId textHuge.IoTHubMessage_GetMessageId, ascii "\r\n Correlation ID: ",
        printedId textHuge.IoTHubMessage_GetCorrelationId, ascii "\r\n Data: <<<"]
      hugeString.chars [ascii ">>>\r\n"]
      0 (by rw [hpre]; decide) (by rw [hpre, hlen]; decide)
    rw [hpre] at hstop
    rw [stringBlock]
    exact congrArg (fun out => State.initial.trace ++ [Event.printf out]) hstop

/-- C10. `receive_msg_callback` returns `IOTHUBMESSAGE_ACCEPTED` for every message, user
context and state, never a rejected or abandoned disposition, whatever the content type and
also when the payload cannot be retrieved; it prints one block in which an absent message id
or correlation id appears as `<unavailable>`, and it leaves the globals unchanged. -/
theorem receive_msg_callback_always_accepts (message : InboundMessage) (user_context : HANDLE)
    (s : State) :
    (receive_msg_callback message user_context s).1
      = IOTHUBMESSAGE_DISPOSITION_RESULT.IOTHUBMESSAGE_ACCEPTED ∧
    (receive_msg_callback message user_context s).1
      ≠ IOTHUBMESSAGE_DISPOSITION_RESULT.IOTHUBMESSAGE_REJECTED ∧
    (receive_msg_callback message user_context s).1
      ≠ IOTHUBMESSAGE_DISPOSITION_RESULT.IOTHUBMESSAGE_ABANDONED ∧
    (receive_msg_callback message user_context s).2.trace
      = s.trace ++ [Event.printf (expectedReceiveOutput message)] ∧
    printedId none = ascii "<unavailable>" ∧
    (receive_msg_callback message user_context s).2.g_continueRunning = s.g_continueRunning ∧
    (receive_msg_callback message user_context s).2.g_message_count_send_confirmations
      = s.g_message_count_send_confirmations := by
  rw [receive_msg_callback_eq]
  simp [State.emit, printedId]

/-! ## `connection_status_callback` -/

/-- C8. For every status, reason, user context and state, `connection_status_callback`
prints exactly one line: `The device client is connected to iothub` if and only if the status
is `IOTHUB_CLIENT_CONNECTION_AUTHENTICATED`, and `The device client has been disconnected`
otherwise; the result does not depend on the reason or the user context, and
`g_continueRunning` and `g_message_count_send_confirmations` are left unchanged. -/
theorem connection_status_callback_observational {Reason : Type}
    (result : IOTHUB_CLIENT_CONNECTION_STATUS) (reason reason2 : Reason)
    (user_context user_context2 : HANDLE) (s : State) :
    (∃ line : Bytes,
      (connection_status_callback result reason user_context s).trace
        = s.trace ++ [Event.printf line] ∧
      (line = ascii "The device client is connected to iothub\r\n" ↔
        result = IOTHUB_CLIENT_CONNECTION_STATUS.IOTHUB_CLIENT_CONNECTION_AUTHENTICATED) ∧
      (line = ascii "The device client has been disconnected\r\n" ↔
        result ≠ IOTHUB_CLIENT_CONNECTION_STATUS.IOTHUB_CLIENT_CONNECTION_AUTHENTICATED) ∧
      line.count 10 = 1 ∧ line.getLast? = some 10) ∧
    connection_status_callback result reason2 user_context2 s
      = connection_status_callback result reason user_context s ∧
    (connection_status_callback result reason user_context s).g_continueRunning
      = s.g_continueRunning ∧
    (connection_status_callback result reason user_context s).g_message_count_send_confirmations
      = s.g_message_count_send_confirmations := by
  have hc : printf "The device client is connected to iothub\r\n" []
      = ascii "The device client is connected to iothub\r\n" := by decide
  have hd : printf "The device client has been disconnected\r\n" []
      = ascii "The device client has been disconnected\r\n" := by decide
  have hne : ascii "The device client has been disconnected\r\n"
      ≠ ascii "The device client is connected to iothub\r\n" := by decide
  cases result
  · refine ⟨⟨ascii "The device client is connected to iothub\r\n", ?_, ?_, ?_, ?_, ?_⟩,
      rfl, rfl, rfl⟩
    · simp [connection_status_callback, State.emit, hc]
    · simp
    · simp [hne.symm]
    · decide
    · decide
  · refine ⟨⟨ascii "The device client has been disconnected\r\n", ?_, ?_, ?_, ?_, ?_⟩,
      rfl, rfl, rfl⟩
    · simp [connection_status_callback, State.emit, hd]
    · simp [hne]
    · simp
    · decide
    · decide

/-! ## `send_confirm_callback` -/

theorem printf_confirmation (n : Nat) (name : CString) :
    printf "Confirmation callback received for message %zu with result %s\r\n"
      [Arg.size n, Arg.str name] = confirmationLine n name := by
  simp only [confirmationLine, List.append_assoc]
  rfl

theorem send_confirm_callback_eq {Result : Type} (SIZE_MAX : Nat)
    (ENUM_TO_STRING : Result → CString) (result : Result) (ctx : HANDLE) (s : State)
    (h : s.g_message_count_send_confirmations < SIZE_MAX) :
    send_confirm_callback SIZE_MAX ENUM_TO_STRING result ctx s =
      { g_continueRunning := s.g_continueRunning
        g_message_count_send_confirmations := s.g_message_count_send_confirmations + 1
        trace := s.trace ++ [Event.printf
          (confirmationLine (s.g_message_count_send_confirmations + 1)
            (ENUM_TO_STRING result))] } := by
  have hm : (s.g_message_count_send_confirmations + 1) % (SIZE_MAX + 1)
      = s.g_message_count_send_confirmations + 1 := Nat.mod_eq_of_lt (by omega)
  simp [send_confirm_callback, State.emit, printf_confirmation, hm]

theorem confirm_all_spec {Result : Type} (SIZE_MAX : Nat) (ENUM_TO_STRING : Result → CString)
    (invocations : List (Result × HANDLE)) :
    ∀ s : State, s.g_message_count_send_confirmations + invocations.length ≤ SIZE_MAX →
      (confirm_all SIZE_MAX ENUM_TO_STRING invocations s).g_message_count_send_confirmations
        = s.g_message_count_send_confirmations + invocations.length ∧
      (confirm_all SIZE_MAX ENUM_TO_STRING invocations s).trace
        = s.trace ++ confirmationLines ENUM_TO_STRING
            (s.g_message_count_send_confirmations + 1) invocations ∧
      (confirm_all SIZE_MAX ENUM_TO_STRING invocations s).g_continueRunning
        = s.g_continueRunning := by
  induction invocations with
  | nil => intro s _; simp [confirm_all, confirmationLines]
  | cons x rest ih =>
    intro s hs
    obtain ⟨result, ctx⟩ := x
    simp only [List.length_cons] at hs
    have hlt : s.g_message_count_send_confirmations < SIZE_MAX := by omega
    simp only [confirm_all, send_confirm_callback_eq _ _ _ _ _ hlt]
    obtain ⟨h1, h2, h3⟩ := ih
      { g_continueRunning := s.g_continueRunning
        g_message_count_send_confirmations := s.g_message_count_send_confirmations + 1
        trace := s.trace ++ [Event.printf
          (confirmationLine (s.g_message_count_send_confirmations + 1)
            (ENUM_TO_STRING result))] } (by simp only; omega)
    refine ⟨?_, ?_, ?_⟩
    · rw [h1]; simp only [List.length_cons]; omega
    · rw [h2]; simp [confirmationLines]
    · rw [h3]

/-! ## The facade of the spec: one confirmation per submitted message -/

/-- Invariant of the facade: the messages in flight and the messages confirmed are, together,
exactly the submitted messages, each once; and the handler ran once per confirmation. -/
theorem Facade.run_invariant (SIZE_MAX : Nat) (steps : List FacadeStep) :
    ∀ f : Facade,
      (f.inFlight ++ f.confirmed.map Prod.fst).Perm (List.range f.submitted) →
      f.app.trace.length = f.confirmed.length →
      (((f.run SIZE_MAX steps).inFlight ++ (f.run SIZE_MAX steps).confirmed.map Prod.fst).Perm
          (List.range (f.run SIZE_MAX steps).submitted) ∧
        (f.run SIZE_MAX steps).app.trace.length = (f.run SIZE_MAX steps).confirmed.length) := by
  induction steps with
  | nil => intro f h1 h2; exact ⟨h1, h2⟩
  | cons st rest ih =>
    intro f h1 h2
    have hrun : f.run SIZE_MAX (st :: rest) = (f.step SIZE_MAX st).run SIZE_MAX rest := rfl
    rw [hrun]
    apply ih
    · cases st with
      | sendAsync =>
        simp only [Facade.step, Facade.sendAsync, List.range_succ]
        have : (f.inFlight ++ [f.submitted] ++ f.confirmed.map Prod.fst).Perm
            ((f.inFlight ++ f.confirmed.map Prod.fst) ++ [f.submitted]) := by
          rw [List.append_assoc, List.append_assoc]
          exact List.Perm.append_left _ List.perm_append_comm
        exact this.trans (List.Perm.append_right _ h1)
      | transportProcess choice outcome =>
        simp only [Facade.step, Facade.transportProcess]
        cases hm : f.inFlight[choice % f.inFlight.length]? with
        | none => exact h1
        | some m =>
          have hmem : m ∈ f.inFlight := List.getElem?_mem hm
          simp only [List.map_append, List.map_cons, List.map_nil]
          have h3 : (f.inFlight.erase m ++ (f.confirmed.map Prod.fst ++ [m])).Perm
              (m :: f.inFlight.erase m ++ f.confirmed.map Prod.fst) := by
            rw [← List.append_assoc]
            exact List.perm_append_comm.trans (by simp)
          have h4 : (m :: f.inFlight.erase m ++ f.confirmed.map Prod.fst).Perm
              (f.inFlight ++ f.confirmed.map Prod.fst) :=
            List.Perm.append_right _ (List.perm_cons_erase hmem).symm
          exact (h3.trans h4).trans h1
    · cases st with
      | sendAsync => exact h2
      | transportProcess choice outcome =>
        simp only [Facade.step, Facade.transportProcess]
        cases hm : f.inFlight[choice % f.inFlight.length]? with
        | none => exact h2
        | some m =>
          simp [send_confirm_callback, State.emit, h2]

/-- The transport empties the set of in-flight messages once it has taken at least as many
processing steps as there are messages in flight, whatever it picks. -/
theorem Facade.run_processing_drains (SIZE_MAX : Nat) (later : List (Nat × DeliveryOutcome)) :
    ∀ f : Facade, f.inFlight.length ≤ later.length →
      ((f.run SIZE_MAX (processing later)).inFlight = [] ∧
        (f.run SIZE_MAX (processing later)).submitted = f.submitted) := by
  induction later with
  | nil =>
    intro f h
    have : f.inFlight = [] := List.eq_nil_of_length_eq_zero (by simpa using h)
    exact ⟨this, rfl⟩
  | cons c rest ih =>
    intro f h
    have hrun : f.run SIZE_MAX (processing (c :: rest))
        = (f.transportProcess SIZE_MAX c.1 c.2).run SIZE_MAX (processing rest) := rfl
    rw [hrun]
    have hstep : (f.transportProcess SIZE_MAX c.1 c.2).inFlight.length ≤ rest.length ∧
        (f.transportProcess SIZE_MAX c.1 c.2).submitted = f.submitted := by
      simp only [Facade.transportProcess]
      cases hm : f.inFlight[c.1 % f.inFlight.length]? with
      | none =>
        have hnil : f.inFlight = [] := by
          by_contra hne
          have hpos : 0 < f.inFlight.length := List.length_pos.mpr hne
          have hlt : c.1 % f.inFlight.length < f.inFlight.length := Nat.mod_lt _ hpos
          rw [List.getElem?_eq_getElem hlt] at hm
          exact Option.noConfusion hm
        simp [hnil]
      | some m =>
        have hmem : m ∈ f.inFlight := List.getElem?_mem hm
        simp only [List.length_erase_of_mem hmem, List.length_cons] at h ⊢
        exact ⟨by omega, trivial⟩
    obtain ⟨h1, h2⟩ := ih _ hstep.1
    exact ⟨h1, h2.trans hstep.2⟩

theorem confirm_all_append {Result : Type} (SIZE_MAX : Nat) (ENUM_TO_STRING : Result → CString)
    (xs : List (Result × HANDLE)) (x : Result × HANDLE) :
    ∀ s : State, confirm_all SIZE_MAX ENUM_TO_STRING (xs ++ [x]) s
      = send_confirm_callback SIZE_MAX ENUM_TO_STRING x.1 x.2
          (confirm_all SIZE_MAX ENUM_TO_STRING xs s) := by
  induction xs with
  | nil => intro s; rfl
  | cons y ys ih =>
    intro s
    obtain ⟨r, c⟩ := y
    simp only [List.cons_append, confirm_all]
    exact ih _

/-- The state of the sample in the facade is the result of the handler invocations that the
confirmations stand for. -/
theorem Facade.run_app (SIZE_MAX : Nat) (steps : List FacadeStep) :
    ∀ f : Facade,
      f.app = confirm_all SIZE_MAX DeliveryOutcome.name (handlerCalls f.confirmed)
        State.initial →
      (f.run SIZE_MAX steps).app = confirm_all SIZE_MAX DeliveryOutcome.name
        (handlerCalls (f.run SIZE_MAX steps).confirmed) State.initial := by
  induction steps with
  | nil => intro f h; exact h
  | cons st rest ih =>
    intro f h
    have hrun : f.run SIZE_MAX (st :: rest) = (f.step SIZE_MAX st).run SIZE_MAX rest := rfl
    rw [hrun]
    apply ih
    cases st with
    | sendAsync => exact h
    | transportProcess choice outcome =>
      simp only [Facade.step, Facade.transportProcess]
      cases hm : f.inFlight[choice % f.inFlight.length]? with
      | none => exact h
      | some m =>
        simp only [handlerCalls, List.map_append, List.map_cons, List.map_nil]
        rw [confirm_all_append, h]
        rfl

theorem Facade.run_append (SIZE_MAX : Nat) (f : Facade) (xs ys : List FacadeStep) :
    f.run SIZE_MAX (xs ++ ys) = (f.run SIZE_MAX xs).run SIZE_MAX ys := by
  simp [Facade.run, List.foldl_append]

/-- The facade counts the submissions among its steps. -/
theorem Facade.run_submitted (SIZE_MAX : Nat) (steps : List FacadeStep) :
    ∀ f : Facade, (f.run SIZE_MAX steps).submitted
      = f.submitted + (steps.filter FacadeStep.isSubmission).length := by
  induction steps with
  | nil => intro f; rfl
  | cons st rest ih =>
    intro f
    have hrun : f.run SIZE_MAX (st :: rest) = (f.step SIZE_MAX st).run SIZE_MAX rest := rfl
    rw [hrun, ih]
    cases st with
    | sendAsync =>
      simp only [Facade.step, Facade.sendAsync, List.filter_cons, FacadeStep.isSubmission,
        if_true, List.length_cons]
      omega
    | transportProcess choice outcome =>
      have hsub : (f.step SIZE_MAX (FacadeStep.transportProcess choice outcome)).submitted
          = f.submitted := by
        simp only [Facade.step, Facade.transportProcess]
        cases f.inFlight[choice % f.inFlight.length]? <;> rfl
      rw [hsub]
      simp [FacadeStep.isSubmission]

theorem processing_no_submission (later : List (Nat × DeliveryOutcome)) :
    (processing later).filter FacadeStep.isSubmission = [] := by
  induction later with
  | nil => rfl
  | cons c rest ih =>
    simp only [processing, List.map_cons, List.filter_cons, FacadeStep.isSubmission] at ih ⊢
    simpa using ih

/-- When every call of `IoTHubClient_SendEventAsync` in `main` returned OK, the run of
`main` brings `MESSAGE_COUNT` submissions to the facade. -/
theorem driveSteps_main_submissions (sdk : SDK) (during : Nat → List (Nat × DeliveryOutcome))
    (hsent : ∀ index < MESSAGE_COUNT, sdk.IoTHubClient_SendEventAsync index = RESULT.OK) :
    ((driveSteps sdk during 0 0 (main sdk).2.trace).filter FacadeStep.isSubmission).length
      = MESSAGE_COUNT := by
  have s0 := hsent 0 (by decide)
  have s1 := hsent 1 (by decide)
  have s2 := hsent 2 (by decide)
  have s3 := hsent 3 (by decide)
  have s4 := hsent 4 (by decide)
  rw [main_trace]
  simp [straightLine, prologue, iteration, epilogue, driveSteps, s0, s1, s2, s3, s4,
    processing_no_submission, FacadeStep.isSubmission, MESSAGE_COUNT]

/-- C2 (amended). Starting from `g_message_count_send_confirmations = 0`, for every `n` within
the `size_t` range and every sequence of `n` invocations of `send_confirm_callback` (any
results, any user contexts), the counter ends at exactly `n` and the k-th invocation prints
ordinal `k` with the name of the result it was given. On the facade modelled from the spec:
when each of the five calls of `IoTHubClient_SendEventAsync` in `main` returned OK, then,
once the transport has processed the messages in flight before the connection is closed (in
any order, with any outcomes, also while `main` is still running), each of the five messages
has been confirmed exactly once, the counter ends at 5, the k-th line printed carries ordinal
`k` and the name of the outcome reported for the message confirmed k-th, and all five lines
are tagged success when the transport reports success for every message. -/
theorem confirmations_counted_and_tagged {Result : Type} (SIZE_MAX : Nat)
    (ENUM_TO_STRING : Result → CString) (invocations : List (Result × HANDLE)) (s : State)
    (sdk : SDK) (during : Nat → List (Nat × DeliveryOutcome))
    (later : List (Nat × DeliveryOutcome))
    (h0 : s.g_message_count_send_confirmations = 0)
    (hn : invocations.length ≤ SIZE_MAX)
    (hsize : 65535 ≤ SIZE_MAX)
    (hsent : ∀ index < MESSAGE_COUNT, sdk.IoTHubClient_SendEventAsync index = RESULT.OK)
    (hfair : (Facade.opened.run SIZE_MAX
      (driveSteps sdk during 0 0 (main sdk).2.trace)).inFlight.length ≤ later.length) :
    ((confirm_all SIZE_MAX ENUM_TO_STRING invocations s).g_message_count_send_confirmations
        = invocations.length ∧
      (confirm_all SIZE_MAX ENUM_TO_STRING invocations s).trace
        = s.trace ++ confirmationLines ENUM_TO_STRING 1 invocations ∧
      (∀ (k : Nat) (name : CString), (plainConfirmationLine k name.chars).length ≤ INT_MAX →
        confirmationLine k name = plainConfirmationLine k name.chars)) ∧
    (((Facade.opened.run SIZE_MAX (driveSteps sdk during 0 0 (main sdk).2.trace)).run SIZE_MAX
        (processing later)).confirmed.map Prod.fst).Perm (List.range MESSAGE_COUNT) ∧
    ((Facade.opened.run SIZE_MAX (driveSteps sdk during 0 0 (main sdk).2.trace)).run SIZE_MAX
        (processing later)).app.g_message_count_send_confirmations = 5 ∧
    ((Facade.opened.run SIZE_MAX (driveSteps sdk during 0 0 (main sdk).2.trace)).run SIZE_MAX
        (processing later)).app.trace
      = confirmationLines DeliveryOutcome.name 1
          (handlerCalls ((Facade.opened.run SIZE_MAX
            (driveSteps sdk during 0 0 (main sdk).2.trace)).run SIZE_MAX
              (processing later)).confirmed) ∧
    ((∀ c ∈ ((Facade.opened.run SIZE_MAX (driveSteps sdk during 0 0 (main sdk).2.trace)).run
        SIZE_MAX (processing later)).confirmed, c.2 = DeliveryOutcome.success) →
      ((Facade.opened.run SIZE_MAX (driveSteps sdk during 0 0 (main sdk).2.trace)).run SIZE_MAX
        (processing later)).app.trace =
        [Event.printf (ascii
            "Confirmation callback received for message 1 with result success\r\n"),
          Event.printf (ascii
            "Confirmation callback received for message 2 with result success\r\n"),
          Event.printf (ascii
            "Confirmation callback received for message 3 with result success\r\n"),
          Event.printf (ascii
            "Confirmation callback received for message 4 with result success\r\n"),
          Event.printf (ascii
            "Confirmation callback received for message 5 with result success\r\n")]) := by
  -- the callback by itself
  obtain ⟨c1, c2, _⟩ := confirm_all_spec SIZE_MAX ENUM_TO_STRING invocations s
    (by rw [h0]; omega)
  rw [h0] at c1 c2
  have hplain : ∀ (k : Nat) (name : CString),
      (plainConfirmationLine k name.chars).length ≤ INT_MAX →
      confirmationLine k name = plainConfirmationLine k name.chars := by
    intro k name hfit
    have hc : concat (ascii "Confirmation callback received for message "
        :: (decimalParts k ++ [ascii " with result ", name.chars, ascii "\r\n"]))
        = plainConfirmationLine k name.chars := by
      simp only [concat, concat_append, plainConfirmationLine, decimal, List.append_assoc,
        List.append_nil]
    rw [confirmationLine, written_all _ 0 (by rw [hc]; omega), hc]
  refine ⟨⟨by rw [c1]; omega, by rw [c2], hplain⟩, ?_⟩
  -- the facade
  obtain ⟨g1, g2⟩ := Facade.run_invariant SIZE_MAX
    (driveSteps sdk during 0 0 (main sdk).2.trace) Facade.opened
    (by simp [Facade.opened]) (by simp [Facade.opened, State.initial])
  obtain ⟨k1, _⟩ := Facade.run_invariant SIZE_MAX (processing later) _ g1 g2
  obtain ⟨d1, d2⟩ := Facade.run_processing_drains SIZE_MAX later _ hfair
  have hsub : (Facade.opened.run SIZE_MAX
      (driveSteps sdk during 0 0 (main sdk).2.trace)).submitted = MESSAGE_COUNT := by
    rw [Facade.run_submitted, driveSteps_main_submissions sdk during hsent]
    simp [Facade.opened]
  rw [d1, d2, hsub, List.nil_append] at k1
  have happ0 := Facade.run_app SIZE_MAX (driveSteps sdk during 0 0 (main sdk).2.trace)
    Facade.opened rfl
  have happ := Facade.run_app SIZE_MAX (processing later) _ happ0
  have hlen : (handlerCalls ((Facade.opened.run SIZE_MAX
      (driveSteps sdk during 0 0 (main sdk).2.trace)).run SIZE_MAX
        (processing later)).confirmed).length = 5 := by
    have := k1.length_eq
    simpa [handlerCalls, MESSAGE_COUNT] using this
  obtain ⟨a1, a2, _⟩ := confirm_all_spec SIZE_MAX DeliveryOutcome.name
    (handlerCalls ((Facade.opened.run SIZE_MAX
      (driveSteps sdk during 0 0 (main sdk).2.trace)).run SIZE_MAX
        (processing later)).confirmed) State.initial
    (by rw [hlen]; simp only [State.initial]; omega)
  rw [← happ] at a1 a2
  have htrace : ((Facade.opened.run SIZE_MAX
      (driveSteps sdk during 0 0 (main sdk).2.trace)).run SIZE_MAX
        (processing later)).app.trace
      = confirmationLines DeliveryOutcome.name 1
          (handlerCalls ((Facade.opened.run SIZE_MAX
            (driveSteps sdk during 0 0 (main sdk).2.trace)).run SIZE_MAX
              (processing later)).confirmed) := by
    rw [a2]
    rfl
  refine ⟨k1, ?_, htrace, ?_⟩
  · rw [a1, hlen]
    rfl
  · intro hall
    rw [htrace]
    have hcalls : handlerCalls ((Facade.opened.run SIZE_MAX
        (driveSteps sdk during 0 0 (main sdk).2.trace)).run SIZE_MAX
          (processing later)).confirmed
        = List.replicate 5 (DeliveryOutcome.success, none) := by
      have hmem : ∀ b ∈ handlerCalls ((Facade.opened.run SIZE_MAX
          (driveSteps sdk during 0 0 (main sdk).2.trace)).run SIZE_MAX
            (processing later)).confirmed, b = (DeliveryOutcome.success, none) := by
        intro b hb
        simp only [handlerCalls, List.mem_map] at hb
        obtain ⟨c, hc, rfl⟩ := hb
        rw [hall c hc]
      have hrep := List.eq_replicate_of_mem hmem
      rw [hlen] at hrep
      exact hrep
    rw [hcalls]
    set_option maxRecDepth 100000 in decide

/-- Five accepted submissions of `main`, confirmed while `main` waits and in another order
than submitted, leave the counter at 5. -/
theorem confirmations_counted_and_tagged_witness :
    State.initial.g_message_count_send_confirmations = 0 ∧
    ([(DeliveryOutcome.success, none), (DeliveryOutcome.timeout, some 3)]
      : List (DeliveryOutcome × HANDLE)).length ≤ 65535 ∧
    65535 ≤ 65535 ∧
    (∀ index < MESSAGE_COUNT, sdkAllOk.IoTHubClient_SendEventAsync index = RESULT.OK) ∧
    (Facade.opened.run 65535
      (driveSteps sdkAllOk (fun _ => []) 0 0 (main sdkAllOk).2.trace)).inFlight.length
      ≤ [(3, DeliveryOutcome.success), (0, DeliveryOutcome.failure),
          (7, DeliveryOutcome.success), (1, DeliveryOutcome.timeout),
          (0, DeliveryOutcome.success)].length ∧
    ((Facade.opened.run 65535
      (driveSteps sdkAllOk (fun _ => []) 0 0 (main sdkAllOk).2.trace)).run 65535
        (processing [(3, DeliveryOutcome.success), (0, DeliveryOutcome.failure),
          (7, DeliveryOutcome.success), (1, DeliveryOutcome.timeout),
          (0, DeliveryOutcome.success)])).app.g_message_count_send_confirmations = 5 :=
  ⟨rfl, by decide, by decide, fun _ _ => rfl,
    by set_option maxRecDepth 100000 in decide,
    (confirmations_counted_and_tagged 65535 DeliveryOutcome.name
      [(DeliveryOutcome.success, none), (DeliveryOutcome.timeout, some 3)] State.initial
      sdkAllOk (fun _ => [])
      [(3, DeliveryOutcome.success), (0, DeliveryOutcome.failure),
        (7, DeliveryOutcome.success), (1, DeliveryOutcome.timeout),
        (0, DeliveryOutcome.success)]
      rfl (by decide) (by decide) (fun _ _ => rfl)
      (by set_option maxRecDepth 100000 in decide)).2.2.1⟩

/-- C2 (as stated) fails in two ways. With all five submissions of `main` accepted and the
transport reporting a failure for the message it processes second, the second confirmation
line is tagged failure, not success. With `IoTHubClient_CreateFromConnectionString` returning
`NULL` and every call of `IoTHubClient_SendEventAsync` reporting failure, `main` still makes
its five calls, but nothing is submitted and nothing is confirmed: the counter stays 0. -/
theorem confirmations_not_five_successes :
    ((Facade.opened.run 65535
      (driveSteps sdkAllOk (fun _ => []) 0 0 (main sdkAllOk).2.trace)).run 65535
        (processing [(0, DeliveryOutcome.success), (0, DeliveryOutcome.failure),
          (0, DeliveryOutcome.success), (0, DeliveryOutcome.success),
          (0, DeliveryOutcome.success)])).app.trace =
      [Event.printf (ascii
          "Confirmation callback received for message 1 with result success\r\n"),
        Event.printf (ascii
          "Confirmation callback received for message 2 with result failure\r\n"),
        Event.printf (ascii
          "Confirmation callback received for message 3 with result success\r\n"),
        Event.printf (ascii
          "Confirmation callback received for message 4 with result success\r\n"),
        Event.printf (ascii
          "Confirmation callback received for message 5 with result success\r\n")] ∧
    sdkCreateFails.IoTHubClient_CreateFromConnectionString = none ∧
    sdkCreateFails.IoTHubClient_SendEventAsync 0 ≠ RESULT.OK ∧
    (positions isSend (main sdkCreateFails).2.trace).length = 5 ∧
    ((Facade.opened.run 65535
      (driveSteps sdkCreateFails (fun _ => []) 0 0 (main sdkCreateFails).2.trace)).run 65535
        (processing [(0, DeliveryOutcome.success), (0, DeliveryOutcome.success),
          (0, DeliveryOutcome.success), (0, DeliveryOutcome.success),
          (0, DeliveryOutcome.success)])).app.g_message_count_send_confirmations = 0 := by
  set_option maxRecDepth 100000 in decide

/-- C6 (as stated) fails: when `IoTHubClient_CreateFromConnectionString` returns `NULL` and
the registrations and all five submissions report failure, `main` returns the same value and
prints the same bytes as in the run in which every call succeeds. -/
theorem main_hides_sdk_failures :
    sdkAllOk.IoTHubClient_CreateFromConnectionString ≠ none ∧
    sdkCreateFails.IoTHubClient_CreateFromConnectionString = none ∧
    sdkAllOk.IoTHubClient_SetMessageCallback = RESULT.OK ∧
    sdkCreateFails.IoTHubClient_SetMessageCallback ≠ RESULT.OK ∧
    sdkAllOk.IoTHubClient_SendEventAsync 0 = RESULT.OK ∧
    sdkCreateFails.IoTHubClient_SendEventAsync 0 ≠ RESULT.OK ∧
    ¬ ((main sdkCreateFails).1 ≠ (main sdkAllOk).1 ∨
      stdout (main sdkCreateFails).2.trace ≠ stdout (main sdkAllOk).2.trace) := by
  set_option maxRecDepth 100000 in decide

end IoTHubConvenienceSample
